import Mathlib

/-!
Verification of the westbetpro prediction engine against its design
specification.  The definitions below are shallow embeddings of the
Python sources under `backend/`:

* `engine.py`        — odds matching, confidence scoring, opportunity
                       processing, and the run pipeline;
* `sandbox_evaluator.py` — candidate-rule recommendation logic;
* `learning_engine.py`   — degradation detection and the Wilson interval;
* `api_football.py`  — fuzzy fixture matching and prediction grading;
* `track_results.py` — the result tracker's prediction grading.

Python dictionaries are embedded as association lists (`List (String × ℚ)`),
decimal odds as rationals, machine integers as `Int`/`Nat`.  Definitions
keep the source names (snake case) where Lean allows it.
-/

/-! ## Data model (`golden_rules.py`, `engine.py`) -/

/-- Embedding of the `GoldenRule` dataclass from `golden_rules.py`. -/
structure GoldenRule where
  id : Int
  name : String
  primary_odds : List (String × ℚ)
  secondary_odds : Option (List (String × ℚ)) := none
  exclude_odds : Option (List (String × ℚ)) := none
  predictions : List String := []
  confidence_base : Int := 85
  importance : String := "normal"
  deriving DecidableEq, Repr

/-- Embedding of a match row from the `matches` table as consumed by
`SupabaseOpportunityEngine.process_matches`.  The odds snapshot
(`opening_odds` JSONB) is an association list; an absent / null snapshot
is the empty list (both are falsy in the Python source). -/
structure MatchRow where
  id : Int
  home_team : String
  away_team : String
  league : String
  match_date : String
  match_time : Option String := none
  opening_odds : List (String × ℚ) := []
  deriving DecidableEq, Repr

/-- Python truthiness of an `Optional[Dict]`: `None` and the empty dict are
falsy (`if rule.secondary_odds:` in `match_rule_to_match`). -/
def dictTruthy (o : Option (List (String × ℚ))) : Bool :=
  match o with
  | none => false
  | some l => !l.isEmpty

/-! ## OddsMatcher (`engine.py` lines 210–309) -/

/-- Embedding of `SupabaseOpportunityEngine._convert_odds_key`: the fixed
label-to-key table with a slug fallback.  The fallback lowercases and
replaces spaces by underscores; the source uses Python `str.lower`, which
agrees with `String.toLower` on the ASCII rule keys in the catalog. -/
def convert_odds_key (rule_key : String) : String :=
  if rule_key = "4-5" then "oran_45"
  else if rule_key = "2,5 Ü" then "oran_25_ust"
  else if rule_key = "3,5 Ü" then "oran_35_ust"
  else if rule_key = "3,5 A" then "oran_35_alt"
  else if rule_key = "VAR" then "oran_var"
  else if rule_key = "1" then "oran_1"
  else if rule_key = "0" then "oran_0"
  else if rule_key = "2" then "oran_2"
  else if rule_key = "İY 0.5" then "iy_05"
  else if rule_key = "İY 1.5" then "iy_15"
  else if rule_key = "MS 0.5" then "ms_05"
  else if rule_key = "MS 1.5" then "ms_15"
  else if rule_key = "MS 2.5" then "ms_25"
  else if rule_key = "MS 3.5" then "ms_35"
  else (rule_key.toLower.replace " " "_")

/-- The pair loop of `check_odds_match`: walks the rule signature in
insertion order.  For a normal signature a missing key or an out-of-tolerance
value returns `false` immediately; for an exclude signature a missing key is
skipped and an in-tolerance value returns `false`. -/
def check_odds_pairs (tolerance : ℚ) (match_odds : List (String × ℚ))
    (is_exclude : Bool) : List (String × ℚ) → Bool
  | [] => true
  | (odds_key, required_val) :: rest =>
    match match_odds.lookup (convert_odds_key odds_key) with
    | none =>
      if is_exclude then check_odds_pairs tolerance match_odds is_exclude rest
      else false
    | some actual_val =>
      let is_match : Bool := |actual_val - required_val| ≤ tolerance
      if is_exclude then
        if is_match then false
        else check_odds_pairs tolerance match_odds is_exclude rest
      else
        if is_match then check_odds_pairs tolerance match_odds is_exclude rest
        else false

/-- Embedding of `SupabaseOpportunityEngine.check_odds_match` (engine.py
lines 210–251).  The leading guard `if not match_odds: return False` makes an
empty (or null) snapshot fail outright, before any pair is examined. -/
def check_odds_match (tolerance : ℚ) (match_odds : List (String × ℚ))
    (rule_odds : List (String × ℚ)) (is_exclude : Bool) : Bool :=
  if match_odds.isEmpty then false
  else check_odds_pairs tolerance match_odds is_exclude rule_odds

/-- Embedding of `SupabaseOpportunityEngine.match_rule_to_match` (engine.py
lines 282–309): primary check, then the secondary and exclude checks, each
guarded by Python truthiness of the optional dict. -/
def match_rule_to_match (tolerance : ℚ) (m : MatchRow) (rule : GoldenRule) : Bool :=
  let odds := m.opening_odds
  if !check_odds_match tolerance odds rule.primary_odds false then false
  else if dictTruthy rule.secondary_odds
      && !check_odds_match tolerance odds (rule.secondary_odds.getD []) false then false
  else if dictTruthy rule.exclude_odds
      && !check_odds_match tolerance odds (rule.exclude_odds.getD []) true then false
  else true

/-! Spec-side rendering of claim C1 (for the refinement comparison): a pair is
satisfied iff the translated key is present and within tolerance; a normal
signature matches iff all pairs are satisfied; an exclude signature triggers
iff some pair is satisfied; a rule matches iff primary matches, the secondary
(when present) matches, and the exclude (when present) does not trigger. -/

/-- One (label, requiredValue) pair is satisfied by a snapshot. -/
def pairSatisfied (tolerance : ℚ) (snapshot : List (String × ℚ))
    (pair : String × ℚ) : Bool :=
  match snapshot.lookup (convert_odds_key pair.1) with
  | none => false
  | some actual => |actual - pair.2| ≤ tolerance

/-- Spec wording: a normal signature matches iff all its pairs are satisfied
(a pair whose key is absent is unsatisfied, failing the match). -/
def signatureMatchesSpec (tolerance : ℚ) (snapshot : List (String × ℚ))
    (signature : List (String × ℚ)) : Bool :=
  signature.all (pairSatisfied tolerance snapshot)

/-- Spec wording: an exclude signature triggers iff any of its pairs is
satisfied (absent keys are skipped, i.e. non-conflicting). -/
def excludeTriggersSpec (tolerance : ℚ) (snapshot : List (String × ℚ))
    (signature : List (String × ℚ)) : Bool :=
  signature.any (pairSatisfied tolerance snapshot)

/-- Spec wording of the whole-rule match of claim C1. -/
def ruleMatchesSpec (tolerance : ℚ) (m : MatchRow) (rule : GoldenRule) : Bool :=
  signatureMatchesSpec tolerance m.opening_odds rule.primary_odds
  && (match rule.secondary_odds with
      | none => true
      | some s => signatureMatchesSpec tolerance m.opening_odds s)
  && (match rule.exclude_odds with
      | none => true
      | some e => !excludeTriggersSpec tolerance m.opening_odds e)

/-! ## ConfidenceCalculator (`engine.py` lines 311–344) -/

/-- The `importance_bonus` dictionary of `calculate_confidence`, with the
`.get(..., 0)` default for unknown tiers. -/
def importance_bonus (importance : String) : Int :=
  if importance = "çok_önemli" then 3
  else if importance = "önemli" then 2
  else if importance = "özel" then 1
  else if importance = "normal" then 0
  else 0

/-- Embedding of `SupabaseOpportunityEngine.calculate_confidence` (engine.py
lines 311–344). -/
def calculate_confidence (rule : GoldenRule) (prediction : String) : Int :=
  let base := rule.confidence_base
  let base := base + importance_bonus rule.importance
  let prediction_count := rule.predictions.length
  let base := if prediction_count ≤ 2 then base + 2
    else if prediction_count ≤ 4 then base + 1
    else base
  let base :=
    match rule.predictions with
    | [] => base
    | p0 :: _ => if prediction = p0 then base + 1 else base
  min 100 base

/-- Spec-side bonus decomposition used by claim C2. -/
def rarityBonusSpec (rule : GoldenRule) : Int :=
  if rule.predictions.length ≤ 2 then 2
  else if rule.predictions.length ≤ 4 then 1
  else 0

/-- Spec-side primary-slot bonus used by claim C2. -/
def primaryBonusSpec (rule : GoldenRule) (prediction : String) : Int :=
  match rule.predictions with
  | [] => 0
  | p0 :: _ => if prediction = p0 then 1 else 0

/-! ## Theorems for C1, C2 and C10 -/

/-- C1 as frozen is refuted on an empty odds snapshot combined with an empty
primary signature: the claim's pairwise semantics make every signature
vacuously satisfied, so the rule should match, but `check_odds_match` fails
any empty snapshot outright. -/
theorem c1_empty_snapshot_counterexample :
    match_rule_to_match 0
      { id := 1, home_team := "A", away_team := "B", league := "L",
        match_date := "2024-01-01", opening_odds := [] }
      { id := 7, name := "r", primary_odds := [] } = false
    ∧ ruleMatchesSpec 0
      { id := 1, home_team := "A", away_team := "B", league := "L",
        match_date := "2024-01-01", opening_odds := [] }
      { id := 7, name := "r", primary_odds := [] } = true := by
  constructor <;> rfl

theorem check_odds_pairs_eq_all (t : ℚ) (snapshot : List (String × ℚ))
    (sig : List (String × ℚ)) :
    check_odds_pairs t snapshot false sig
      = sig.all (pairSatisfied t snapshot) := by
  induction sig with
  | nil => rfl
  | cons p rest ih =>
    obtain ⟨k, v⟩ := p
    simp only [check_odds_pairs, List.all_cons, pairSatisfied]
    cases h : snapshot.lookup (convert_odds_key k) with
    | none => simp
    | some a =>
      by_cases hm : |a - v| ≤ t
      · simp [hm, ih]
      · simp [hm]

theorem check_odds_pairs_eq_not_any (t : ℚ) (snapshot : List (String × ℚ))
    (sig : List (String × ℚ)) :
    check_odds_pairs t snapshot true sig
      = !sig.any (pairSatisfied t snapshot) := by
  induction sig with
  | nil => rfl
  | cons p rest ih =>
    obtain ⟨k, v⟩ := p
    simp only [check_odds_pairs, List.any_cons, pairSatisfied]
    cases h : snapshot.lookup (convert_odds_key k) with
    | none => simp [ih]
    | some a =>
      by_cases hm : |a - v| ≤ t
      · simp [hm]
      · simp [hm, ih]

theorem check_odds_match_normal (t : ℚ) (snap sig : List (String × ℚ)) :
    check_odds_match t snap sig false
      = (!snap.isEmpty && signatureMatchesSpec t snap sig) := by
  unfold check_odds_match
  cases he : snap.isEmpty <;>
    simp [he, check_odds_pairs_eq_all, signatureMatchesSpec]

theorem check_odds_match_exclude (t : ℚ) (snap sig : List (String × ℚ)) :
    check_odds_match t snap sig true
      = (!snap.isEmpty && !excludeTriggersSpec t snap sig) := by
  unfold check_odds_match
  cases he : snap.isEmpty <;>
    simp [he, check_odds_pairs_eq_not_any, excludeTriggersSpec]

theorem spec_secondary_eval (t : ℚ) (snap : List (String × ℚ))
    (o : Option (List (String × ℚ))) :
    (match o with
      | none => true
      | some s => signatureMatchesSpec t snap s)
      = (!dictTruthy o || signatureMatchesSpec t snap (o.getD [])) := by
  rcases o with _ | s
  · simp [dictTruthy]
  · rcases s with _ | ⟨q, qs⟩ <;> simp [dictTruthy, signatureMatchesSpec]

theorem spec_exclude_eval (t : ℚ) (snap : List (String × ℚ))
    (o : Option (List (String × ℚ))) :
    (match o with
      | none => true
      | some e => !excludeTriggersSpec t snap e)
      = (!dictTruthy o || !excludeTriggersSpec t snap (o.getD [])) := by
  rcases o with _ | s
  · simp [dictTruthy]
  · rcases s with _ | ⟨q, qs⟩ <;> simp [dictTruthy, excludeTriggersSpec]

/-- C1 amended: on a non-empty snapshot the engine realises exactly the
claim's signature semantics; in addition an empty (or absent) odds snapshot
never matches, the signature checks failing outright before any pair is
examined. -/
theorem c1_rule_match_spec (t : ℚ) (ht : 0 ≤ t) (m : MatchRow)
    (rule : GoldenRule) :
    match_rule_to_match t m rule
      = (!m.opening_odds.isEmpty && ruleMatchesSpec t m rule) := by
  unfold match_rule_to_match ruleMatchesSpec
  dsimp only
  rw [spec_secondary_eval, spec_exclude_eval, check_odds_match_normal,
    check_odds_match_normal, check_odds_match_exclude]
  cases hA : m.opening_odds.isEmpty <;>
    cases hP : signatureMatchesSpec t m.opening_odds rule.primary_odds <;>
    cases hS : signatureMatchesSpec t m.opening_odds
      (rule.secondary_odds.getD []) <;>
    cases hE : excludeTriggersSpec t m.opening_odds
      (rule.exclude_odds.getD []) <;>
    cases hd2 : dictTruthy rule.secondary_odds <;>
    cases hd3 : dictTruthy rule.exclude_odds <;>
    simp_all

/-- Witness for `c1_rule_match_spec` at tolerance 0 on a concrete snapshot
and rule. -/
theorem c1_rule_match_spec_witness :
    (0 : ℚ) ≤ 0
    ∧ match_rule_to_match 0
        { id := 1, home_team := "A", away_team := "B", league := "L",
          match_date := "2024-01-01",
          opening_odds := [("oran_45", (233 : ℚ)/100)] }
        { id := 30, name := "4-5 gol 2.33",
          primary_odds := [("4-5", (233 : ℚ)/100)],
          predictions := ["İY 0.5 ÜST"], confidence_base := 90,
          importance := "önemli" }
      = (!([(("oran_45" : String), (233 : ℚ)/100)].isEmpty)
          && ruleMatchesSpec 0
            { id := 1, home_team := "A", away_team := "B", league := "L",
              match_date := "2024-01-01",
              opening_odds := [("oran_45", (233 : ℚ)/100)] }
            { id := 30, name := "4-5 gol 2.33",
              primary_odds := [("4-5", (233 : ℚ)/100)],
              predictions := ["İY 0.5 ÜST"], confidence_base := 90,
              importance := "önemli" }) :=
  ⟨le_refl 0, c1_rule_match_spec 0 (le_refl 0) _ _⟩

/-- C2: for a rule whose `confidence_base` lies in [0,100] the confidence of
any of its predictions equals `min 100 (base + importance bonus + rarity
bonus + primary-slot bonus)` and always lies in [0,100]. -/
theorem c2_confidence_formula (rule : GoldenRule) (prediction : String)
    (hmem : prediction ∈ rule.predictions)
    (h0 : 0 ≤ rule.confidence_base) (h100 : rule.confidence_base ≤ 100) :
    calculate_confidence rule prediction
      = min 100 (rule.confidence_base + importance_bonus rule.importance
          + rarityBonusSpec rule + primaryBonusSpec rule prediction)
    ∧ 0 ≤ calculate_confidence rule prediction
    ∧ calculate_confidence rule prediction ≤ 100 := by
  have himp : 0 ≤ importance_bonus rule.importance := by
    unfold importance_bonus
    repeat' split
    all_goals omega
  have heq : calculate_confidence rule prediction
      = min 100 (rule.confidence_base + importance_bonus rule.importance
          + rarityBonusSpec rule + primaryBonusSpec rule prediction) := by
    unfold calculate_confidence rarityBonusSpec primaryBonusSpec
    cases hp : rule.predictions with
    | nil => norm_num
    | cons p0 ps =>
      simp only [List.length_cons]
      congr 1
      split_ifs <;> omega
  have hrar : 0 ≤ rarityBonusSpec rule := by
    unfold rarityBonusSpec; repeat' split; all_goals omega
  have hprim : 0 ≤ primaryBonusSpec rule prediction := by
    unfold primaryBonusSpec
    cases rule.predictions with
    | nil => simp
    | cons a l => dsimp only; split <;> omega
  refine ⟨heq, ?_, ?_⟩
  · rw [heq]; omega
  · rw [heq]; omega

/-- Witness for `c2_confidence_formula`: the spec's concrete case — base 85,
importance `önemli` (important), two predictions, primary slot — scores
exactly 90. -/
theorem c2_confidence_formula_witness :
    calculate_confidence
      { id := 1, name := "w", primary_odds := [("4-5", (5 : ℚ)/2)],
        predictions := ["MS 2.5 ÜST", "KG VAR"], confidence_base := 85,
        importance := "önemli" } "MS 2.5 ÜST" = 90 := by
  have h := c2_confidence_formula
    { id := 1, name := "w", primary_odds := [("4-5", (5 : ℚ)/2)],
      predictions := ["MS 2.5 ÜST", "KG VAR"], confidence_base := 85,
      importance := "önemli" } "MS 2.5 ÜST"
    (by decide) (by decide) (by decide)
  rw [h.1]
  decide

/-- C10 as frozen is refuted: no validation rejects an empty primary
signature, and a rule whose primary signature is empty does match a fixture
with a non-empty odds snapshot (the all-pairs check is vacuously true). -/
theorem c10_empty_primary_counterexample :
    match_rule_to_match 0
      { id := 1, home_team := "A", away_team := "B", league := "L",
        match_date := "2024-01-01", opening_odds := [("oran_1", 2)] }
      { id := 7, name := "empty", primary_odds := [] } = true := by
  rfl

/-- C10 amended: the engine performs no validation of rule signatures; a rule
whose primary signature is empty (and which has no secondary or exclude
signature) matches every fixture whose odds snapshot is non-empty, and fails
only when the snapshot itself is empty. -/
theorem c10_empty_primary_matches (t : ℚ) (m : MatchRow) (rule : GoldenRule)
    (hp : rule.primary_odds = []) (hs : rule.secondary_odds = none)
    (he : rule.exclude_odds = none) :
    match_rule_to_match t m rule = !m.opening_odds.isEmpty := by
  unfold match_rule_to_match check_odds_match
  cases hod : m.opening_odds.isEmpty with
  | true => simp [hod]
  | false => simp [hod, hp, hs, he, check_odds_pairs, dictTruthy]

/-- Witness for `c10_empty_primary_matches` on a concrete fixture with one
odds entry. -/
theorem c10_empty_primary_matches_witness :
    match_rule_to_match 0
      { id := 1, home_team := "A", away_team := "B", league := "L",
        match_date := "2024-01-01", opening_odds := [("oran_1", 2)] }
      { id := 7, name := "empty", primary_odds := [] }
    = !([(("oran_1" : String), (2 : ℚ))].isEmpty) :=
  c10_empty_primary_matches 0 _ _ rfl rfl rfl

/-! ## OpportunityProcessor (`engine.py` lines 346–414) -/

/-- One scored prediction entry, as built in the `all_predictions` list of
`process_matches`. -/
structure PredictionEntry where
  bet : String
  confidence : Int
  rule_id : Int
  rule_name : String
  deriving DecidableEq, Repr

/-- An opportunity dict as assembled by `process_matches`. -/
structure Opportunity where
  match_id : Int
  home_team : String
  away_team : String
  league : String
  match_date : String
  match_time : Option String
  prediction : String
  confidence : Int
  alternative_predictions : List PredictionEntry
  matched_rules : List (Int × String)
  note : String
  deriving DecidableEq, Repr

/-- Insertion step of a stable descending sort on confidence: the new
element goes in front of the first entry whose confidence is not larger. -/
def insertByConf (x : PredictionEntry) : List PredictionEntry → List PredictionEntry
  | [] => [x]
  | y :: ys =>
    if y.confidence ≤ x.confidence then x :: y :: ys
    else y :: insertByConf x ys

/-- Stable descending sort on confidence, modelling the Python call
`all_predictions.sort(key=lambda x: x["confidence"], reverse=True)` (Python's
sort is stable).  The permutation, sortedness and per-key filter theorems
below pin this definition to exactly that behaviour. -/
def sortByConfDesc : List PredictionEntry → List PredictionEntry
  | [] => []
  | x :: xs => insertByConf x (sortByConfDesc xs)

/-- The golden rules matching a fixture, in catalog order (the
`matched_rules` list of `process_matches`). -/
def matchedRules (tol : ℚ) (rules : List GoldenRule) (m : MatchRow) :
    List GoldenRule :=
  rules.filter (fun r => match_rule_to_match tol m r)

/-- The `all_predictions` list of `process_matches`: every prediction of
every matched rule, scored, in catalog-then-rule order. -/
def allPredictions (tol : ℚ) (rules : List GoldenRule) (m : MatchRow) :
    List PredictionEntry :=
  (matchedRules tol rules m).flatMap (fun r =>
    r.predictions.map (fun p =>
      { bet := p, confidence := calculate_confidence r p,
        rule_id := r.id, rule_name := r.name }))

/-- Per-fixture body of the `process_matches` loop: build the opportunity
for one match row, or `none` when no rule matched or the best confidence is
below the threshold.  (When all matched rules had empty prediction lists the
source would raise an `IndexError` at `all_predictions[0]`; that branch is
unreachable for catalogs whose rules all carry a non-empty prediction list,
which is the hypothesis of the theorem below.) -/
def find_opportunity (tol : ℚ) (rules : List GoldenRule) (min_confidence : Int)
    (m : MatchRow) : Option Opportunity :=
  let matched := matchedRules tol rules m
  if matched.isEmpty then none
  else
    let all_preds := allPredictions tol rules m
    match sortByConfDesc all_preds with
    | [] => none
    | best :: rest =>
      if min_confidence ≤ best.confidence then
        let n := all_preds.length
        some { match_id := m.id, home_team := m.home_team,
               away_team := m.away_team, league := m.league,
               match_date := m.match_date, match_time := m.match_time,
               prediction := best.bet, confidence := best.confidence,
               alternative_predictions := rest,
               matched_rules := matched.map (fun r => (r.id, r.name)),
               note := s!"{n} tahmin mevcut" }
      else none

/-- Embedding of `SupabaseOpportunityEngine.process_matches` (engine.py
lines 346–414): the loop over matches appending each found opportunity. -/
def process_matches (tol : ℚ) (rules : List GoldenRule) (min_confidence : Int)
    (ms : List MatchRow) : List Opportunity :=
  ms.foldl (fun opportunities m =>
    match find_opportunity tol rules min_confidence m with
    | some opp => opportunities ++ [opp]
    | none => opportunities) []

theorem insertByConf_perm (x : PredictionEntry) (l : List PredictionEntry) :
    (insertByConf x l).Perm (x :: l) := by
  induction l with
  | nil => exact List.Perm.refl _
  | cons y ys ih =>
    unfold insertByConf
    split
    · exact List.Perm.refl _
    · exact ((ih.cons y).trans (List.Perm.swap x y ys))

theorem sortByConfDesc_perm (l : List PredictionEntry) :
    (sortByConfDesc l).Perm l := by
  induction l with
  | nil => exact List.Perm.refl _
  | cons x xs ih =>
    exact (insertByConf_perm x (sortByConfDesc xs)).trans (ih.cons x)

theorem mem_insertByConf {z x : PredictionEntry} {l : List PredictionEntry} :
    z ∈ insertByConf x l ↔ z = x ∨ z ∈ l := by
  constructor
  · intro h
    have := (insertByConf_perm x l).mem_iff.mp h
    simpa using this
  · intro h
    exact (insertByConf_perm x l).mem_iff.mpr (by simpa using h)

theorem insertByConf_pairwise (x : PredictionEntry) (l : List PredictionEntry)
    (h : l.Pairwise (fun a b => b.confidence ≤ a.confidence)) :
    (insertByConf x l).Pairwise (fun a b => b.confidence ≤ a.confidence) := by
  induction l with
  | nil => simp [insertByConf]
  | cons y ys ih =>
    rw [List.pairwise_cons] at h
    obtain ⟨hy, hys⟩ := h
    unfold insertByConf
    split
    · rename_i hle
      refine List.Pairwise.cons ?_ (List.Pairwise.cons hy hys)
      intro z hz
      rcases hz with _ | hz
      · exact hle
      · exact le_trans (hy z (by assumption)) hle
    · rename_i hgt
      push_neg at hgt
      refine List.Pairwise.cons ?_ (ih hys)
      intro z hz
      rcases mem_insertByConf.mp hz with hzx | hzl
      · exact hzx ▸ le_of_lt hgt
      · exact hy z hzl

theorem sortByConfDesc_pairwise (l : List PredictionEntry) :
    (sortByConfDesc l).Pairwise (fun a b => b.confidence ≤ a.confidence) := by
  induction l with
  | nil => simp [sortByConfDesc]
  | cons x xs ih => exact insertByConf_pairwise x _ ih

theorem filter_insertByConf (c : Int) (x : PredictionEntry)
    (l : List PredictionEntry) :
    (insertByConf x l).filter (fun p => p.confidence == c)
      = if x.confidence == c then x :: l.filter (fun p => p.confidence == c)
        else l.filter (fun p => p.confidence == c) := by
  induction l with
  | nil =>
    by_cases hx : x.confidence = c <;>
      simp [insertByConf, List.filter_cons, hx]
  | cons y ys ih =>
    unfold insertByConf
    split
    · rename_i hle
      by_cases hx : x.confidence = c <;> simp [List.filter_cons, hx]
    · rename_i hgt
      push_neg at hgt
      by_cases hx : x.confidence = c
      · have hy : ¬ y.confidence = c := by
          intro h; rw [h, ← hx] at hgt; exact absurd hgt (lt_irrefl _)
        simp [List.filter_cons, hx, hy, ih]
      · by_cases hy : y.confidence = c <;> simp [List.filter_cons, hx, hy, ih]

theorem sortByConfDesc_filter (c : Int) (l : List PredictionEntry) :
    (sortByConfDesc l).filter (fun p => p.confidence == c)
      = l.filter (fun p => p.confidence == c) := by
  induction l with
  | nil => rfl
  | cons x xs ih =>
    unfold sortByConfDesc
    rw [filter_insertByConf]
    by_cases hx : x.confidence = c <;> simp [List.filter_cons, hx, ih]

theorem process_matches_foldl (tol : ℚ) (rules : List GoldenRule)
    (minc : Int) (ms : List MatchRow) (acc : List Opportunity) :
    ms.foldl (fun opportunities m =>
      match find_opportunity tol rules minc m with
      | some opp => opportunities ++ [opp]
      | none => opportunities) acc
    = acc ++ ms.filterMap (find_opportunity tol rules minc) := by
  induction ms generalizing acc with
  | nil => simp
  | cons m ms ih =>
    simp only [List.foldl_cons, List.filterMap_cons]
    cases h : find_opportunity tol rules minc m with
    | none => simpa using ih acc
    | some o => rw [ih (acc ++ [o])]; simp

theorem find_opportunity_none_of_no_match (tol : ℚ) (rules : List GoldenRule)
    (minc : Int) (m : MatchRow) (h : matchedRules tol rules m = []) :
    find_opportunity tol rules minc m = none := by
  unfold find_opportunity
  simp [h]

theorem allPredictions_ne_nil (tol : ℚ) (rules : List GoldenRule)
    (m : MatchRow) (hpred : ∀ r ∈ rules, r.predictions ≠ [])
    (hm : matchedRules tol rules m ≠ []) :
    allPredictions tol rules m ≠ [] := by
  obtain ⟨r, hr⟩ := List.exists_mem_of_ne_nil _ hm
  have hrr : r ∈ rules := List.mem_of_mem_filter hr
  intro hnil
  unfold allPredictions at hnil
  rw [List.flatMap_eq_nil_iff] at hnil
  exact hpred r hrr (List.map_eq_nil_iff.mp (hnil r hr))

theorem find_opportunity_some_spec (tol : ℚ) (rules : List GoldenRule)
    (minc : Int) (m : MatchRow) (o : Opportunity)
    (ho : find_opportunity tol rules minc m = some o) :
    matchedRules tol rules m ≠ []
    ∧ ∃ best rest, sortByConfDesc (allPredictions tol rules m) = best :: rest
        ∧ o.prediction = best.bet ∧ o.confidence = best.confidence
        ∧ minc ≤ best.confidence
        ∧ o.alternative_predictions = rest := by
  unfold find_opportunity at ho
  dsimp only at ho
  by_cases hme : (matchedRules tol rules m).isEmpty
  · rw [if_pos hme] at ho; exact absurd ho (by simp)
  · rw [if_neg hme] at ho
    refine ⟨by simpa using hme, ?_⟩
    cases hs : sortByConfDesc (allPredictions tol rules m) with
    | nil => rw [hs] at ho; exact absurd ho (by simp)
    | cons best rest =>
      rw [hs] at ho
      dsimp only at ho
      by_cases hbc : minc ≤ best.confidence
      · rw [if_pos hbc] at ho
        obtain rfl := Option.some.inj ho
        exact ⟨best, rest, rfl, rfl, rfl, hbc, rfl⟩
      · rw [if_neg hbc] at ho; exact absurd ho (by simp)

theorem find_opportunity_isSome_iff (tol : ℚ) (rules : List GoldenRule)
    (minc : Int) (m : MatchRow) :
    (find_opportunity tol rules minc m).isSome
      ↔ matchedRules tol rules m ≠ []
        ∧ ∃ best rest,
            sortByConfDesc (allPredictions tol rules m) = best :: rest
            ∧ minc ≤ best.confidence := by
  constructor
  · intro hsome
    obtain ⟨o, ho⟩ := Option.isSome_iff_exists.mp hsome
    obtain ⟨hm, best, rest, hs, _, _, hbc, _⟩ :=
      find_opportunity_some_spec tol rules minc m o ho
    exact ⟨hm, best, rest, hs, hbc⟩
  · rintro ⟨hm, best, rest, hs, hbc⟩
    unfold find_opportunity
    dsimp only
    rw [if_neg (by simpa using hm), hs]
    dsimp only
    rw [if_pos hbc]
    rfl

/-- C3: `process_matches` is an independent per-fixture `filterMap`; a
fixture matching zero rules yields no opportunity (and no error); an emitted
opportunity carries the head of the stably sorted prediction list as primary
and the full remainder as alternatives (no truncation); an opportunity is
emitted iff some rule matched and the top confidence reaches the threshold;
and the sorted list is a permutation of the collected predictions, descending
in confidence, with ties kept in catalog order (equal-confidence entries keep
their collection order). -/
theorem c3_process_matches (tol : ℚ) (rules : List GoldenRule) (minc : Int)
    (ms : List MatchRow) (hpred : ∀ r ∈ rules, r.predictions ≠ []) :
    process_matches tol rules minc ms
        = ms.filterMap (find_opportunity tol rules minc)
    ∧ (∀ m : MatchRow, matchedRules tol rules m = [] →
        find_opportunity tol rules minc m = none)
    ∧ (∀ m : MatchRow, matchedRules tol rules m ≠ [] →
        allPredictions tol rules m ≠ [])
    ∧ (∀ (m : MatchRow) (o : Opportunity),
        find_opportunity tol rules minc m = some o →
        matchedRules tol rules m ≠ []
        ∧ ∃ best rest,
            sortByConfDesc (allPredictions tol rules m) = best :: rest
            ∧ o.prediction = best.bet ∧ o.confidence = best.confidence
            ∧ minc ≤ best.confidence
            ∧ o.alternative_predictions = rest)
    ∧ (∀ m : MatchRow,
        (find_opportunity tol rules minc m).isSome
          ↔ matchedRules tol rules m ≠ []
            ∧ ∃ best rest,
                sortByConfDesc (allPredictions tol rules m) = best :: rest
                ∧ minc ≤ best.confidence)
    ∧ (∀ m : MatchRow,
        (sortByConfDesc (allPredictions tol rules m)).Perm
            (allPredictions tol rules m)
        ∧ (sortByConfDesc (allPredictions tol rules m)).Pairwise
            (fun a b => b.confidence ≤ a.confidence)
        ∧ ∀ c : Int,
            (sortByConfDesc (allPredictions tol rules m)).filter
                (fun p => p.confidence == c)
              = (allPredictions tol rules m).filter
                  (fun p => p.confidence == c)) := by
  refine ⟨?_, ?_, ?_, ?_, ?_, ?_⟩
  · unfold process_matches
    simpa using process_matches_foldl tol rules minc ms []
  · exact fun m hm => find_opportunity_none_of_no_match tol rules minc m hm
  · exact fun m hm => allPredictions_ne_nil tol rules m hpred hm
  · exact fun m o ho => find_opportunity_some_spec tol rules minc m o ho
  · exact fun m => find_opportunity_isSome_iff tol rules minc m
  · exact fun m =>
      ⟨sortByConfDesc_perm _, sortByConfDesc_pairwise _,
        fun c => sortByConfDesc_filter c _⟩

/-- Rule used by the C3 witness: matches the witness fixture. -/
def wRuleA : GoldenRule :=
  { id := 30, name := "4-5 gol 2.33", primary_odds := [("4-5", (233 : ℚ)/100)],
    predictions := ["İY 0.5 ÜST", "İY 1.5 ÜST"], confidence_base := 90,
    importance := "önemli" }

/-- Rule used by the C3 witness: does not match the witness fixture. -/
def wRuleB : GoldenRule :=
  { id := 16, name := "4-5 gol 2.38", primary_odds := [("4-5", (238 : ℚ)/100)],
    predictions := ["İY 0.5 ÜST", "MS 2.5 ÜST"], confidence_base := 91,
    importance := "önemli" }

/-- Fixture used by the C3 witness. -/
def wMatchRow : MatchRow :=
  { id := 1, home_team := "Galatasaray", away_team := "Fenerbahce",
    league := "Süper Lig", match_date := "2024-05-01",
    opening_odds := [("oran_45", (233 : ℚ)/100)] }

/-- Witness for `c3_process_matches` on a two-rule catalog of which exactly
one rule matches the fixture. -/
theorem c3_process_matches_witness :
    (∀ r ∈ [wRuleA, wRuleB], r.predictions ≠ [])
    ∧ process_matches 0 [wRuleA, wRuleB] 85 [wMatchRow]
        = [wMatchRow].filterMap (find_opportunity 0 [wRuleA, wRuleB] 85) :=
  ⟨by decide, (c3_process_matches 0 [wRuleA, wRuleB] 85 [wMatchRow]
    (by decide)).1⟩

/-! ## SandboxComparator recommendation (`sandbox_evaluator.py` lines 432–451)
together with the win-rate fragment of `_calculate_test_metrics`
(lines 352–414).  The human-readable reason strings returned alongside each
recommendation are presentational and elided. -/

/-- The `self.min_sample_size` attribute of `SandboxEvaluator` (and of
`LearningEngine`). -/
def min_sample_size : ℕ := 30

/-- Embedding of `SandboxEvaluator._generate_recommendation` (the
recommendation label; the reason string is elided). -/
def generate_recommendation (sample_size : ℕ) (win_rate_delta : ℚ)
    (is_significant : Bool) (win_rate : ℚ) : String :=
  if sample_size < min_sample_size then "insufficient_data"
  else if !is_significant then "reject"
  else if 5 < win_rate_delta ∧ 75 < win_rate then "approve"
  else if 0 < win_rate_delta ∧ 70 < win_rate then "needs_tuning"
  else "reject"

/-- Win-rate computation of `_calculate_test_metrics`:
`wins / total * 100` with a zero-total guard. -/
def win_rate_pct (wins total : ℕ) : ℚ :=
  if 0 < total then (wins : ℚ) / (total : ℚ) * 100 else 0

/-- Decision table of claim C4, worded as in the spec: insufficient data
below 30, reject when not significant, approve when delta > 5 and rate > 75,
needs tuning when delta > 0 and rate > 70, otherwise reject. -/
def sandboxRecommendationSpec (candidateTotal : ℕ) (winRateDelta : ℚ)
    (significant : Bool) (candidateRate : ℚ) : String :=
  if candidateTotal < 30 then "insufficient_data"
  else if significant = false then "reject"
  else if winRateDelta > 5 ∧ candidateRate > 75 then "approve"
  else if winRateDelta > 0 ∧ candidateRate > 70 then "needs_tuning"
  else "reject"

/-- C4: the sandbox recommendation realises exactly the claimed decision
table, and on the boundary case candidateTotal = 40, candidateWins = 30
(rate 75), baseline rate 70 and a significant p-value, the delta is exactly
5, rule 3 does not fire (both of its comparisons are strict), and the
recommendation is `needs_tuning`. -/
theorem c4_sandbox_recommendation :
    (∀ (n : ℕ) (delta : ℚ) (sig : Bool) (rate : ℚ),
      generate_recommendation n delta sig rate
        = sandboxRecommendationSpec n delta sig rate)
    ∧ win_rate_pct 30 40 = 75
    ∧ win_rate_pct 30 40 - 70 = 5
    ∧ ¬(5 < win_rate_pct 30 40 - 70 ∧ 75 < win_rate_pct 30 40)
    ∧ generate_recommendation 40 (win_rate_pct 30 40 - 70) true
        (win_rate_pct 30 40) = "needs_tuning" := by
  have h75 : win_rate_pct 30 40 = 75 := by norm_num [win_rate_pct]
  refine ⟨?_, h75, by rw [h75]; norm_num, by rw [h75]; norm_num, ?_⟩
  · intro n delta sig rate
    cases sig <;> rfl
  · rw [h75]
    norm_num [generate_recommendation, min_sample_size]

/-! ## DegradationDetector (`learning_engine.py` lines 150–195, 344–360) -/

/-- A row of `analyze_rule_performance` (learning_engine.py lines 63–125).
The SQL aggregation and the scipy p-value are produced by collaborators; the
detector below consumes the resulting records, as in the source. -/
structure RulePerformance where
  rule_id : Int
  rule_code : String
  total_predictions : ℕ
  won_count : ℕ
  lost_count : ℕ
  success_rate : ℚ
  baseline_success_rate : ℚ
  delta : ℚ
  p_value : ℚ
  is_significant : Bool
  deriving DecidableEq, Repr

/-- Python `int()` on a float/decimal value: truncation toward zero. -/
def pyInt (q : ℚ) : Int :=
  if q < 0 then -⌊-q⌋ else ⌊q⌋

/-- Embedding of `LearningEngine._calculate_severity` (lines 344–351). -/
def calculate_severity (delta : ℚ) : String :=
  if delta < -10 then "high"
  else if delta < -7 then "medium"
  else "low"

/-- Recommendation text of the immediate-disable branch of
`LearningEngine._generate_recommendation`. -/
def disable_recommendation_text (n : ℕ) : String :=
  s!"Disable rule temporarily or reduce confidence_base by {n} points immediately"

/-- Recommendation text of the reduce branch of
`LearningEngine._generate_recommendation`. -/
def reduce_recommendation_text (n : ℕ) : String :=
  s!"Consider reducing confidence_base by {n} points or adding filters"

/-- Embedding of `LearningEngine._generate_recommendation` (lines 353–360);
the numbers are `abs(int(delta))` resp. `abs(int(delta * 0.8))`. -/
def generate_degradation_recommendation (perf : RulePerformance) : String :=
  if perf.delta < -10 then
    disable_recommendation_text (pyInt perf.delta).natAbs
  else if perf.delta < -7 then
    reduce_recommendation_text (pyInt (perf.delta * (8/10))).natAbs
  else "Monitor closely for another week before action"

/-- The fields of the `Suggestion` record built inside
`_detect_rule_degradation` that carry the advisory decision: the severity,
the `abs(int(perf.delta * 0.8))` value of the first suggested action
("Lower confidence_base by N points"), the recommendation text, and the
`action_required` flag.  The remaining fields (ids, free-text description,
raw data echo) are presentational and elided. -/
structure Suggestion where
  severity : String
  lower_confidence_by : ℕ
  recommendation : String
  action_required : Bool
  deriving DecidableEq, Repr

/-- The suggestion record built for one degraded rule inside
`_detect_rule_degradation` (lines 161–191). -/
def make_degradation_suggestion (perf : RulePerformance) : Suggestion :=
  let severity := calculate_severity perf.delta
  { severity := severity,
    lower_confidence_by := (pyInt (perf.delta * (8/10))).natAbs,
    recommendation := generate_degradation_recommendation perf,
    action_required := severity == "high" }

/-- Embedding of `LearningEngine._detect_rule_degradation` (lines 150–195):
a pure fold over the performance rows that only reads them — the rule
catalog is never touched. -/
def detect_rule_degradation (performances : List RulePerformance) :
    List Suggestion :=
  performances.foldl (fun suggestions perf =>
    if !perf.is_significant then suggestions
    else if perf.delta < -5 then
      suggestions ++ [make_degradation_suggestion perf]
    else suggestions) []

/-- Performance row refuting the `round` clause of C7: delta −6.9,
significant. -/
def perfDegraded : RulePerformance :=
  { rule_id := 3, rule_code := "GR-3", total_predictions := 1000,
    won_count := 731, lost_count := 269, success_rate := 731/10,
    baseline_success_rate := 80, delta := -69/10, p_value := 0,
    is_significant := true }

/-- C7 as frozen is refuted: for delta = −6.9 the emitted suggested
adjustment is `abs(int(-6.9 * 0.8)) = 5` (Python `int` truncates toward
zero), while `round(|delta| * 0.8) = round(5.52) = 6`. -/
theorem c7_truncation_counterexample :
    (detect_rule_degradation [perfDegraded]).map
        (fun s => s.lower_confidence_by) = [5]
    ∧ round (|perfDegraded.delta| * (8/10)) = (6 : ℤ) := by
  have habs : |perfDegraded.delta| = (69 : ℚ)/10 := by
    rw [show perfDegraded.delta = -69/10 from rfl,
      abs_of_nonpos (by norm_num)]
    norm_num
  constructor
  · have hq : perfDegraded.delta * (8/10) = (-138 : ℚ)/25 := by
      rw [show perfDegraded.delta = -69/10 from rfl]; norm_num
    have hpy : (pyInt (perfDegraded.delta * (8/10))).natAbs = 5 := by
      rw [hq]
      unfold pyInt
      rw [if_pos (by norm_num),
        show -((-138 : ℚ)/25) = 138/25 by norm_num,
        show ⌊(138 : ℚ)/25⌋ = (5 : ℤ) by rw [Int.floor_eq_iff] <;> norm_num]
      rfl
    have hsig : perfDegraded.is_significant = true := rfl
    have hlt : perfDegraded.delta < -5 := by
      rw [show perfDegraded.delta = -69/10 from rfl]; norm_num
    simp [detect_rule_degradation, make_degradation_suggestion, hsig,
      hlt, hpy]
  · rw [habs, show (69 : ℚ)/10 * (8/10) = 138/25 by norm_num, round_eq,
      show (138 : ℚ)/25 + 1/2 = 301/50 by norm_num]
    rw [Int.floor_eq_iff] <;> norm_num

theorem detect_rule_degradation_filterMap (performances : List RulePerformance) :
    detect_rule_degradation performances
      = performances.filterMap (fun p =>
          if p.is_significant = true ∧ p.delta < -5 then
            some (make_degradation_suggestion p)
          else none) := by
  unfold detect_rule_degradation
  suffices h : ∀ (ps : List RulePerformance) (acc : List Suggestion),
      ps.foldl (fun suggestions perf =>
        if !perf.is_significant then suggestions
        else if perf.delta < -5 then
          suggestions ++ [make_degradation_suggestion perf]
        else suggestions) acc
      = acc ++ ps.filterMap (fun p =>
          if p.is_significant = true ∧ p.delta < -5 then
            some (make_degradation_suggestion p)
          else none) by
    simpa using h performances []
  intro ps
  induction ps with
  | nil => intro acc; simp
  | cons p ps ih =>
    intro acc
    simp only [List.foldl_cons, List.filterMap_cons]
    rw [ih]
    cases hsig : p.is_significant with
    | false => simp [hsig]
    | true =>
      by_cases hd : p.delta < -5
      · simp [hsig, hd]
      · simp [hsig, hd]

/-- C7 amended: an advisory is emitted for exactly the rows that are
statistically significant with delta below −5 percentage points; severity is
high below −10, medium below −7, otherwise low; the suggested
confidence-base adjustment is the truncation toward zero of
`|delta| * 0.8` (Python `int`, i.e. `⌊|delta| * 0.8⌋` for the negative
deltas concerned) rather than `round`; below −10 the recommendation is the
immediate-disable text.  The detector is a pure read of the performance
rows: the rule catalog is not an input and cannot be mutated. -/
theorem c7_degradation_amended (performances : List RulePerformance) :
    detect_rule_degradation performances
        = performances.filterMap (fun p =>
            if p.is_significant = true ∧ p.delta < -5 then
              some (make_degradation_suggestion p)
            else none)
    ∧ (∀ p : RulePerformance,
        (make_degradation_suggestion p).severity
          = (if p.delta < -10 then "high"
             else if p.delta < -7 then "medium" else "low"))
    ∧ (∀ p : RulePerformance, p.delta < 0 →
        ((make_degradation_suggestion p).lower_confidence_by : ℤ)
          = ⌊|p.delta| * (8/10)⌋)
    ∧ (∀ p : RulePerformance, p.delta < -10 →
        (make_degradation_suggestion p).recommendation
          = disable_recommendation_text (pyInt p.delta).natAbs) := by
  refine ⟨detect_rule_degradation_filterMap performances, fun p => rfl, ?_, ?_⟩
  · intro p hneg
    have hq : p.delta * (8/10) < 0 := by nlinarith
    show ((pyInt (p.delta * (8/10))).natAbs : ℤ) = ⌊|p.delta| * (8/10)⌋
    unfold pyInt
    rw [if_pos hq, Int.natAbs_neg,
      Int.natAbs_of_nonneg (Int.floor_nonneg.mpr (by linarith)),
      abs_of_neg hneg]
    congr 1
    ring
  · intro p h10
    show generate_degradation_recommendation p = _
    unfold generate_degradation_recommendation
    rw [if_pos h10]

/-- Performance row used by the C7 witness: delta −20, significant. -/
def perfDisable : RulePerformance :=
  { rule_id := 9, rule_code := "GR-9", total_predictions := 100,
    won_count := 60, lost_count := 40, success_rate := 60,
    baseline_success_rate := 80, delta := -20, p_value := 0,
    is_significant := true }

/-- Witness for `c7_degradation_amended` at a concrete degraded row. -/
theorem c7_degradation_amended_witness :
    perfDisable.delta < -10
    ∧ (make_degradation_suggestion perfDisable).recommendation
        = disable_recommendation_text (pyInt perfDisable.delta).natAbs := by
  have h := (c7_degradation_amended [perfDisable]).2.2.2 perfDisable
    (by norm_num [perfDisable])
  exact ⟨by norm_num [perfDisable], h⟩

/-! ## StatisticalValidator: Wilson interval
(`learning_engine.py` lines 308–323).  The z value is
`scipy.stats.norm.ppf((1 + confidence) / 2)`; it enters the formula only as
a nonnegative number and is taken as a parameter of the embedding. -/

/-- Embedding of `LearningEngine._wilson_confidence_interval`: the Wilson
formula with the source's final clamping `(max(0, ...), min(1, ...))`. -/
noncomputable def wilson_confidence_interval (successes total : ℕ) (z : ℝ) :
    ℝ × ℝ :=
  if total = 0 then (0, 0)
  else
    let p : ℝ := (successes : ℝ) / (total : ℝ)
    let n : ℝ := (total : ℝ)
    let denominator := 1 + z^2 / n
    let center := (p + z^2 / (2*n)) / denominator
    let margin := z * Real.sqrt ((p * (1-p) + z^2/(4*n)) / n) / denominator
    (max 0 (center - margin), min 1 (center + margin))

/-- The standard closed-form Wilson score interval as the spec words it
(claim C8), without any clamping. -/
noncomputable def wilsonClosedForm (successes total : ℕ) (z : ℝ) : ℝ × ℝ :=
  let p : ℝ := (successes : ℝ) / (total : ℝ)
  let n : ℝ := (total : ℝ)
  let denominator := 1 + z^2 / n
  let center := (p + z^2 / (2*n)) / denominator
  let margin := z * Real.sqrt ((p * (1-p) + z^2/(4*n)) / n) / denominator
  (center - margin, center + margin)

theorem wilson_key (p N z : ℝ) (hN : 0 < N) (hp0 : 0 ≤ p) (hp1 : p ≤ 1)
    (hz : 0 ≤ z) :
    z * Real.sqrt ((p * (1-p) + z^2/(4*N)) / N) ≤ p + z^2/(2*N) := by
  have hB : 0 ≤ (p * (1-p) + z^2/(4*N)) / N := by
    apply div_nonneg _ hN.le
    have h1 : 0 ≤ p * (1-p) := mul_nonneg hp0 (by linarith)
    have h2 : 0 ≤ z^2/(4*N) := div_nonneg (sq_nonneg z) (by linarith)
    linarith
  have hC : 0 ≤ p + z^2/(2*N) := by
    have : 0 ≤ z^2/(2*N) := div_nonneg (sq_nonneg z) (by linarith)
    linarith
  have h1 : Real.sqrt (z^2 * ((p * (1-p) + z^2/(4*N)) / N))
      = z * Real.sqrt ((p * (1-p) + z^2/(4*N)) / N) := by
    rw [Real.sqrt_mul (sq_nonneg z), Real.sqrt_sq hz]
  rw [← h1]
  have h2 : z^2 * ((p * (1-p) + z^2/(4*N)) / N) ≤ (p + z^2/(2*N))^2 := by
    have key : (p + z^2/(2*N))^2 - z^2 * ((p * (1-p) + z^2/(4*N)) / N)
        = p^2 * (1 + z^2/N) := by
      field_simp
      ring
    have hpos : 0 ≤ p^2 * (1 + z^2/N) := by
      apply mul_nonneg (sq_nonneg p)
      have : 0 ≤ z^2/N := div_nonneg (sq_nonneg z) hN.le
      linarith
    linarith
  calc Real.sqrt (z^2 * ((p * (1-p) + z^2/(4*N)) / N))
      ≤ Real.sqrt ((p + z^2/(2*N))^2) := Real.sqrt_le_sqrt h2
    _ = p + z^2/(2*N) := Real.sqrt_sq hC

/-- C8: the interval returns (0, 0) at total = 0, and for total > 0 it
equals the standard closed-form Wilson score interval exactly (the clamps
are no-ops), with both bounds in [0, 1] and ordered.  The s = 24, n = 30
case at the 95% level follows from the exact equality (it is reproduced to
every decimal place, in particular four). -/
theorem c8_wilson_interval (successes total : ℕ) (z : ℝ)
    (hn : 0 < total) (hs : successes ≤ total) (hz : 0 ≤ z) :
    wilson_confidence_interval successes 0 z = (0, 0)
    ∧ wilson_confidence_interval successes total z
        = wilsonClosedForm successes total z
    ∧ 0 ≤ (wilsonClosedForm successes total z).1
    ∧ (wilsonClosedForm successes total z).1
        ≤ (wilsonClosedForm successes total z).2
    ∧ (wilsonClosedForm successes total z).2 ≤ 1 := by
  have hn0 : total ≠ 0 := hn.ne'
  have hNpos : (0:ℝ) < (total : ℝ) := by exact_mod_cast hn
  refine ⟨rfl, ?_⟩
  unfold wilson_confidence_interval wilsonClosedForm
  rw [if_neg hn0]
  dsimp only
  set N : ℝ := (total : ℝ) with hNdef
  set p : ℝ := (successes : ℝ) / N with hpdef
  set D : ℝ := 1 + z^2 / N with hDdef
  set B : ℝ := (p * (1-p) + z^2/(4*N)) / N with hBdef
  set C : ℝ := p + z^2/(2*N) with hCdef
  have hD : 0 < D := by
    have : 0 ≤ z^2/N := div_nonneg (sq_nonneg z) hNpos.le
    rw [hDdef]; linarith
  have hp0 : 0 ≤ p := div_nonneg (Nat.cast_nonneg _) hNpos.le
  have hp1 : p ≤ 1 := by
    rw [hpdef, div_le_one hNpos, hNdef]
    exact_mod_cast hs
  have hB0 : 0 ≤ B := by
    rw [hBdef]
    apply div_nonneg _ hNpos.le
    have h1 : 0 ≤ p * (1-p) := mul_nonneg hp0 (by linarith)
    have h2 : 0 ≤ z^2/(4*N) := div_nonneg (sq_nonneg z) (by linarith)
    linarith
  have hkey1 : z * Real.sqrt B ≤ C := by
    rw [hBdef, hCdef]
    exact wilson_key p N z hNpos hp0 hp1 hz
  have hkey2 : z * Real.sqrt B ≤ (1 - p) + z^2/(2*N) := by
    have h := wilson_key (1-p) N z hNpos (by linarith) (by linarith) hz
    rw [show (1-p) * (1 - (1-p)) = p * (1-p) from by ring] at h
    rw [hBdef]
    exact h
  have hm0 : 0 ≤ z * Real.sqrt B / D :=
    div_nonneg (mul_nonneg hz (Real.sqrt_nonneg B)) hD.le
  have hlow : 0 ≤ C/D - z * Real.sqrt B/D := by
    rw [div_sub_div_same]
    exact div_nonneg (by linarith) hD.le
  have hDC : D - C = (1 - p) + z^2/(2*N) := by
    rw [hDdef, hCdef]
    ring
  have hup : C/D + z * Real.sqrt B/D ≤ 1 := by
    rw [div_add_div_same, div_le_one hD]
    have h3 : z * Real.sqrt B ≤ D - C := by rw [hDC]; exact hkey2
    linarith
  refine ⟨?_, hlow, by linarith, hup⟩
  rw [max_eq_right hlow, min_eq_right hup]

/-- Witness for `c8_wilson_interval` at the spec's s = 24, n = 30 case with
z = 1.96. -/
theorem c8_wilson_interval_witness :
    (0 < 30) ∧ (24 ≤ 30) ∧ ((0:ℝ) ≤ 49/25)
    ∧ wilson_confidence_interval 24 0 ((49:ℝ)/25) = (0, 0)
    ∧ wilson_confidence_interval 24 30 ((49:ℝ)/25)
        = wilsonClosedForm 24 30 ((49:ℝ)/25) := by
  have h := c8_wilson_interval 24 30 ((49:ℝ)/25)
    (by norm_num) (by norm_num) (by norm_num)
  exact ⟨by norm_num, by norm_num, by norm_num, h.1, h.2.1⟩

/-! ## Run pipeline (`engine.py` lines 416–457 and 502–587)

The storage collaborator is modelled as a predictions table; the run
bookkeeping (`create_run` / `complete_run`) touches only the `runs` table
and is elided.  Load and insert failures come from the environment.  The
archive step swallows its own exceptions in the source ("devam ediliyor")
and is modelled as succeeding. -/

/-- Lexicographic comparison of code points, modelling the byte-wise
comparison the database applies to ISO `YYYY-MM-DD` date strings in the
`gte`/`lte` filters of `archive_old_predictions`. -/
def lexLe : List Char → List Char → Bool
  | [], _ => true
  | _ :: _, [] => false
  | a :: as, b :: bs =>
    if a.toNat < b.toNat then true
    else if b.toNat < a.toNat then false
    else lexLe as bs

/-- String order used for the date-range filters. -/
def strLe (a b : String) : Bool := lexLe a.data b.data

/-- A row of the `predictions` table (the fields the run pipeline reads or
writes; payload fields are carried opaquely by `prediction`). -/
structure PredictionRow where
  match_date : String
  status : String
  prediction : String := ""
  deriving DecidableEq, Repr

/-- The predictions table of the storage collaborator. -/
structure Store where
  predictions : List PredictionRow
  deriving DecidableEq, Repr

/-- Environment of one run: the outcome of loading matches, and, for each
batch index of the insert loop, whether that batch's insert succeeds. -/
structure RunEnv where
  load_result : Except String (List MatchRow)
  batch_ok : ℕ → Bool

/-- The delete condition of `archive_old_predictions` (engine.py lines
416–457): active predictions whose match date lies in the run's range. -/
def archive_condition (date_from date_to : String) (p : PredictionRow) : Bool :=
  p.status == "active" && strLe date_from p.match_date
    && strLe p.match_date date_to

/-- Embedding of `archive_old_predictions`: deletes the active predictions
of the date range, returning the new store and the deleted count. -/
def archive_old_predictions (date_from date_to : String) (st : Store) :
    Store × ℕ :=
  let deleted := st.predictions.filter (archive_condition date_from date_to)
  let remaining := st.predictions.filter
    (fun p => !archive_condition date_from date_to p)
  ({ predictions := remaining }, deleted.length)

/-- The prediction row built for one opportunity in `save_predictions`
(run id and result bookkeeping carried opaquely by `prediction`). -/
def opportunity_row (opp : Opportunity) : PredictionRow :=
  { match_date := opp.match_date, status := "active",
    prediction := opp.prediction }

/-- The `batch_size = 100` of `save_predictions`. -/
def batch_size : ℕ := 100

/-- The batch-insert loop of `save_predictions` (engine.py lines 486–493):
`for i in range(0, len(predictions), batch_size)` inserts one slice of 100
rows per iteration, with NO surrounding transaction.  Each committed batch
is appended to the store immediately; if a batch's insert raises, the loop
stops and the earlier batches stay committed — the pair returned is the
store as committed so far together with the count or the error.  The fuel
argument (called with the row count, one batch consumes ≥ 1 row) only makes
the recursion structural; the out-of-fuel arm is unreachable. -/
def insert_batches (batch_ok : ℕ → Bool) :
    ℕ → ℕ → List PredictionRow → Store → ℕ → Store × Except String ℕ
  | _, _, [], st, inserted_count => (st, .ok inserted_count)
  | 0, _, _ :: _, st, _ => (st, .error "out of fuel")
  | fuel + 1, idx, r :: rs, st, inserted_count =>
    let batch := (r :: rs).take batch_size
    let rest := (r :: rs).drop batch_size
    if batch_ok idx then
      insert_batches batch_ok fuel (idx + 1) rest
        { predictions := st.predictions ++ batch }
        (inserted_count + batch.length)
    else (st, .error "insert failed")

/-- Embedding of `save_predictions` (engine.py lines 459–500): nothing is
written for an empty opportunity list; otherwise rows with status `active`
are inserted in batches of 100.  Returns the store with every batch that
committed before a failure (the source has no rollback), and the inserted
count or the propagated error. -/
def save_predictions (batch_ok : ℕ → Bool) (opportunities : List Opportunity)
    (st : Store) : Store × Except String ℕ :=
  if opportunities.isEmpty then (st, .ok 0)
  else
    let rows := opportunities.map opportunity_row
    insert_batches batch_ok rows.length 0 rows st 0

/-- Embedding of `SupabaseOpportunityEngine.run` (engine.py lines 502–587):
archive the date range FIRST, then load, process and save; any exception is
caught and the run reports failure, keeping whatever the insert loop had
already committed. -/
def run_engine (tol : ℚ) (rules : List GoldenRule) (min_confidence : Int)
    (env : RunEnv) (date_from date_to : String) (st : Store) : Store × Bool :=
  let st1 := (archive_old_predictions date_from date_to st).1
  match env.load_result with
  | .error _ => (st1, false)
  | .ok ms =>
    if ms.isEmpty then (st1, true)
    else
      match save_predictions env.batch_ok
          (process_matches tol rules min_confidence ms) st1 with
      | (st2, .error _) => (st2, false)
      | (st2, .ok _) => (st2, true)

/-- Store holding one prior active prediction inside the run's date range. -/
def c9Store : Store :=
  { predictions := [⟨"2024-05-01", "active", "MS 2.5 ÜST"⟩] }

/-- Environment in which loading the matches fails. -/
def c9EnvFail : RunEnv :=
  { load_result := .error "connection lost", batch_ok := fun _ => true }

/-- C9 as frozen is refuted: a run whose match loading fails reports
failure, yet the previously stored active prediction of its date range is
already gone — the delete step ran before loading. -/
theorem c9_atomicity_counterexample :
    (run_engine 0 [] 85 c9EnvFail "2024-05-01" "2024-05-03" c9Store).2 = false
    ∧ (run_engine 0 [] 85 c9EnvFail "2024-05-01" "2024-05-03"
        c9Store).1.predictions = []
    ∧ c9Store.predictions ≠ [] := by
  refine ⟨rfl, ?_, by decide⟩
  decide

theorem insert_batches_partial (batch_ok : ℕ → Bool) :
    ∀ (fuel idx : ℕ) (rows : List PredictionRow) (st : Store)
      (inserted_count : ℕ),
    ∃ k, (insert_batches batch_ok fuel idx rows st
        inserted_count).1.predictions
      = st.predictions ++ rows.take k := by
  intro fuel
  induction fuel with
  | zero =>
    intro idx rows st inserted_count
    cases rows with
    | nil => exact ⟨0, by simp [insert_batches]⟩
    | cons r rs => exact ⟨0, by simp [insert_batches]⟩
  | succ fuel ih =>
    intro idx rows st inserted_count
    cases rows with
    | nil => exact ⟨0, by simp [insert_batches]⟩
    | cons r rs =>
      rw [insert_batches]
      by_cases hb : batch_ok idx = true
      · rw [if_pos hb]
        obtain ⟨k, hk⟩ := ih (idx + 1) ((r :: rs).drop batch_size)
          { predictions := st.predictions ++ (r :: rs).take batch_size }
          (inserted_count + ((r :: rs).take batch_size).length)
        refine ⟨batch_size + k, ?_⟩
        rw [hk, List.take_add, List.append_assoc]
      · rw [if_neg hb]
        exact ⟨0, by simp⟩

theorem insert_batches_no_fuel_exhaustion (batch_ok : ℕ → Bool) :
    ∀ (fuel idx : ℕ) (rows : List PredictionRow) (st : Store) (n : ℕ),
    rows.length ≤ fuel →
    (insert_batches batch_ok fuel idx rows st n).2
      ≠ Except.error "out of fuel" := by
  intro fuel
  induction fuel with
  | zero =>
    intro idx rows st n hlen
    have hrows : rows = [] := List.length_eq_zero.mp (Nat.le_zero.mp hlen)
    subst hrows
    simp [insert_batches]
  | succ fuel ih =>
    intro idx rows st n hlen
    cases rows with
    | nil => simp [insert_batches]
    | cons r rs =>
      rw [insert_batches]
      by_cases hb : batch_ok idx = true
      · rw [if_pos hb]
        apply ih
        rw [List.length_drop]
        simp only [List.length_cons] at hlen ⊢
        unfold batch_size
        omega
      · rw [if_neg hb]
        intro h
        exact absurd (Except.error.inj h) (by decide)

theorem save_predictions_partial (batch_ok : ℕ → Bool)
    (opportunities : List Opportunity) (st : Store) :
    ∃ k, (save_predictions batch_ok opportunities st).1.predictions
      = st.predictions
          ++ (opportunities.map opportunity_row).take k := by
  unfold save_predictions
  by_cases h : opportunities.isEmpty
  · rw [if_pos h]
    exact ⟨0, by simp⟩
  · rw [if_neg h]
    exact insert_batches_partial batch_ok _ 0 _ st 0

/-- C9 amended: the run is not atomic.  The prior active predictions of the
date range are deleted first; every failing run (load failure, or a failure
of any batch of the insert loop — the loop writes batches of 100 with no
transaction, so earlier batches stay committed) ends with the store equal
to the post-archive state plus some already-committed prefix of the new
prediction rows: the prior active predictions of the range are removed and
never restored, the rest of the table is untouched, and the inserted prefix
is empty unless loading succeeded. -/
theorem c9_run_not_atomic (tol : ℚ) (rules : List GoldenRule)
    (minc : Int) (env : RunEnv) (date_from date_to : String) (st : Store)
    (hfail : (run_engine tol rules minc env date_from date_to st).2 = false) :
    ∃ committed : List PredictionRow,
      (run_engine tol rules minc env date_from date_to st).1.predictions
        = (archive_old_predictions date_from date_to st).1.predictions
            ++ committed
      ∧ (archive_old_predictions date_from date_to st).1.predictions
          = st.predictions.filter
              (fun p => !archive_condition date_from date_to p)
      ∧ (committed = []
          ∨ ∃ ms k, env.load_result = Except.ok ms
              ∧ committed = ((process_matches tol rules minc ms).map
                  opportunity_row).take k) := by
  obtain ⟨lr, bok⟩ := env
  unfold run_engine at hfail ⊢
  dsimp only at hfail ⊢
  cases lr with
  | error e => exact ⟨[], by simp, rfl, Or.inl rfl⟩
  | ok ms =>
    dsimp only at hfail ⊢
    by_cases hms : ms.isEmpty
    · rw [if_pos hms] at hfail
      simp at hfail
    · rw [if_neg hms] at hfail ⊢
      obtain ⟨k, hk⟩ := save_predictions_partial bok
        (process_matches tol rules minc ms)
        (archive_old_predictions date_from date_to st).1
      rcases hsv : save_predictions bok (process_matches tol rules minc ms)
          (archive_old_predictions date_from date_to st).1 with ⟨st2, res⟩
      rw [hsv] at hk
      cases res with
      | error e =>
        exact ⟨((process_matches tol rules minc ms).map
            opportunity_row).take k, hk, rfl,
          Or.inr ⟨ms, k, rfl, rfl⟩⟩
      | ok n =>
        rw [hsv] at hfail
        exact Bool.noConfusion hfail

/-- Witness for `c9_run_not_atomic` on the failing-load environment. -/
theorem c9_run_not_atomic_witness :
    (run_engine 0 [] 85 c9EnvFail "2024-05-01" "2024-05-03" c9Store).2 = false
    ∧ ∃ committed : List PredictionRow,
      (run_engine 0 [] 85 c9EnvFail "2024-05-01" "2024-05-03"
          c9Store).1.predictions
        = (archive_old_predictions "2024-05-01" "2024-05-03"
            c9Store).1.predictions ++ committed
      ∧ (archive_old_predictions "2024-05-01" "2024-05-03"
          c9Store).1.predictions
          = c9Store.predictions.filter
              (fun p => !archive_condition "2024-05-01" "2024-05-03" p)
      ∧ (committed = []
          ∨ ∃ ms k, c9EnvFail.load_result = Except.ok ms
              ∧ committed = ((process_matches 0 [] 85 ms).map
                  opportunity_row).take k) :=
  ⟨rfl, c9_run_not_atomic 0 [] 85 c9EnvFail "2024-05-01" "2024-05-03"
    c9Store rfl⟩

/-! ## String toolkit for the graders and the fixture matcher

These helpers operate on `String.data` (lists of characters) so that
concrete evaluations reduce in the kernel.  `pyUpper`/`pyLower` are the
ASCII case maps; the Python originals are Unicode-aware, but every
non-ASCII (Turkish) letter the sources care about is handled by their
explicit substitution tables, which are embedded verbatim below. -/

/-- First list is an initial segment of the second. -/
def chunkLeads : List Char → List Char → Bool
  | [], _ => true
  | _ :: _, [] => false
  | p :: ps, c :: cs => p == c && chunkLeads ps cs

/-- The pattern occurs somewhere in the list (Python `pat in s`;
an empty pattern is contained in everything). -/
def hasChunk (pat : List Char) : List Char → Bool
  | [] => pat.isEmpty
  | c :: cs => chunkLeads pat (c :: cs) || hasChunk pat cs

/-- Python substring test `pat in s`. -/
def strContains (s pat : String) : Bool := hasChunk pat.data s.data

/-- Python `str.upper` restricted to ASCII. -/
def pyUpper (s : String) : String := String.mk (s.data.map Char.toUpper)

/-- Python `str.lower` restricted to ASCII. -/
def pyLower (s : String) : String := String.mk (s.data.map Char.toLower)

/-- Worker for `pySplit`: accumulates the current token (reversed). -/
def splitWsGo (cur : List Char) : List Char → List String
  | [] => if cur.isEmpty then [] else [String.mk cur.reverse]
  | c :: cs =>
    if c == ' ' then
      if cur.isEmpty then splitWsGo [] cs
      else String.mk cur.reverse :: splitWsGo [] cs
    else splitWsGo (c :: cur) cs

/-- Python `str.split()` with no argument: split on runs of whitespace and
drop empty tokens (the prediction strings use only plain spaces). -/
def pySplit (s : String) : List String := splitWsGo [] s.data

/-- Split a character list at every occurrence of a separator character. -/
def splitCharGo (sep : Char) (cur : List Char) : List Char → List (List Char)
  | [] => [cur.reverse]
  | c :: cs =>
    if c == sep then cur.reverse :: splitCharGo sep [] cs
    else splitCharGo sep (c :: cur) cs

/-- Numeric value of a non-empty all-digit character list. -/
def digitsVal (cs : List Char) : Option ℕ :=
  if !cs.isEmpty && cs.all (fun c => c.isDigit) then
    some (cs.foldl (fun n c => 10 * n + (c.toNat - 48)) 0)
  else none

/-- Python `float()` on the simple decimal literals the prediction grammar
uses ("0.5", "1.5", ...): digits, optionally a dot and more digits.
Returns `none` exactly where `float()` raises `ValueError` on such tokens
(degenerate forms like "1." or ".5" do not occur in the rule catalog). -/
def parseFloatQ (s : String) : Option ℚ :=
  match splitCharGo '.' [] s.data with
  | [a] => (digitsVal a).map (fun n => (n : ℚ))
  | [a, b] =>
    match digitsVal a, digitsVal b with
    | some x, some y => some ((x : ℚ) + (y : ℚ) / (10 ^ b.length))
    | _, _ => none
  | _ => none

/-! ## OutcomeEvaluator, api_football copy
(`api_football.py` lines 297–437) -/

/-- One `for i, part in enumerate(parts)` loop of `check_prediction_result`:
find a marker token, parse the next token as the threshold, and grade
over/under against `value`; a parse failure or a missing direction token
lets the loop continue (`except ValueError: continue` and the fall-through
when neither ÜST nor ALT occurs).  `none` means the loop finished without
returning. -/
def scanPairs (markers : List String) (pred : String) (value : ℚ) :
    List String → Option Bool
  | [] => none
  | part :: rest =>
    if markers.contains part then
      match rest with
      | [] => none
      | next :: _ =>
        match parseFloatQ next with
        | none => scanPairs markers pred value rest
        | some threshold =>
          if strContains pred "ÜST" then some (decide (value > threshold))
          else if strContains pred "ALT" then some (decide (value < threshold))
          else scanPairs markers pred value rest
    else scanPairs markers pred value rest

/-- The checks of `check_prediction_result` after the MS and İY blocks
(api_football.py lines 415–433): halftime both-teams-scored, full-time
both-teams-scored, 1X2, and the final `return None`. -/
def afterScopedChecks (prediction : String) (home_score away_score : Int)
    (halftime_home halftime_away : Option Int) : Option Bool :=
  if (strContains prediction "İY" || strContains prediction "IY")
      && (strContains prediction "KG VAR" || strContains prediction "VAR") then
    match halftime_home, halftime_away with
    | some hh, some ha => some (decide (hh > 0) && decide (ha > 0))
    | _, _ => none
  else if strContains prediction "KG VAR" || strContains prediction "VAR" then
    some (decide (home_score > 0) && decide (away_score > 0))
  else if prediction == "1" then some (decide (home_score > away_score))
  else if prediction == "X" then some (decide (home_score = away_score))
  else if prediction == "2" then some (decide (home_score < away_score))
  else none

/-- Embedding of `api_football.check_prediction_result` (lines 297–437):
grades a prediction against full-time and optional half-time scores;
`none` is the indeterminate result (`return None`). -/
def check_prediction_result (prediction : String)
    (home_score away_score : Int)
    (halftime_home halftime_away : Option Int) : Option Bool :=
  let total_goals := home_score + away_score
  let parts := pySplit prediction
  let msRes : Option Bool :=
    if strContains prediction "MS" then
      if parts.contains "EV" then
        scanPairs ["EV"] prediction (home_score : ℚ) parts
      else if parts.contains "DEP" then
        scanPairs ["DEP"] prediction (away_score : ℚ) parts
      else scanPairs ["MS"] prediction (total_goals : ℚ) parts
    else none
  match msRes with
  | some b => some b
  | none =>
    if strContains prediction "İY" || strContains prediction "IY" then
      match halftime_home, halftime_away with
      | some hh, some ha =>
        let halftime_total := hh + ha
        let iyRes : Option Bool :=
          if parts.contains "EV" then
            scanPairs ["EV"] prediction (hh : ℚ) parts
          else if parts.contains "DEP" then
            scanPairs ["DEP"] prediction (ha : ℚ) parts
          else scanPairs ["İY", "IY"] prediction (halftime_total : ℚ) parts
        match iyRes with
        | some b => some b
        | none =>
          afterScopedChecks prediction home_score away_score (some hh) (some ha)
      | _, _ => none
    else
      afterScopedChecks prediction home_score away_score
        halftime_home halftime_away

/-! ## OutcomeEvaluator, sandbox copy
(`sandbox_evaluator.py` lines 306–320) -/

/-- Embedding of `SandboxEvaluator._evaluate_prediction_outcome`: grades the
four fixed prediction types, with "unknown" for half-time scope (no
half-time data) and for unrecognized types. -/
def evaluate_prediction_outcome (prediction_type : String)
    (home_score away_score : Int) : String :=
  let total_goals := home_score + away_score
  if prediction_type == "MS 2.5 ÜST" then
    (if (total_goals : ℚ) > 5/2 then "won" else "lost")
  else if prediction_type == "MS 2.5 ALT" then
    (if (total_goals : ℚ) < 5/2 then "won" else "lost")
  else if prediction_type == "İY 0.5 ÜST" then "unknown"
  else if prediction_type == "KG VAR" then
    (if home_score > 0 ∧ away_score > 0 then "won" else "lost")
  else "unknown"

/-! ## OutcomeEvaluator, result-tracker copy
(`track_results.py` lines 37–117) -/

/-- The score fields of the match-data dict consumed by
`ResultTracker.check_prediction_result`. -/
structure TrackerMatchData where
  fulltime_home : Option Int
  fulltime_away : Option Int
  halftime_home : Option Int
  halftime_away : Option Int
  deriving DecidableEq, Repr

/-- The first-half block of the tracker grader (lines 77–87); `none` means
the block fell through without returning. -/
def tracker_iy_block (pred : String) (ht_home ht_away ht_total : Int) :
    Option String :=
  if strContains pred "IY" || strContains pred "ILKY" then
    if strContains pred "0.5 UST" || strContains pred "0.5 ÜST" then
      some (if ht_total ≥ 1 then "won" else "lost")
    else if strContains pred "1.5 UST" || strContains pred "1.5 ÜST" then
      some (if ht_total ≥ 2 then "won" else "lost")
    else if strContains pred "2.5 UST" || strContains pred "2.5 ÜST" then
      some (if ht_total ≥ 3 then "won" else "lost")
    else if strContains pred "EV"
        && (strContains pred "0.5 UST" || strContains pred "0.5 ÜST") then
      some (if ht_home ≥ 1 then "won" else "lost")
    else if strContains pred "DEP"
        && (strContains pred "0.5 UST" || strContains pred "0.5 ÜST") then
      some (if ht_away ≥ 1 then "won" else "lost")
    else none
  else none

/-- The full-time block of the tracker grader (lines 90–106). -/
def tracker_ms_block (pred : String) (total_goals : Int) : Option String :=
  if strContains pred "MS" || strContains pred "MAC" then
    if strContains pred "0.5 UST" || strContains pred "0.5 ÜST" then
      some (if total_goals ≥ 1 then "won" else "lost")
    else if strContains pred "1.5 UST" || strContains pred "1.5 ÜST" then
      some (if total_goals ≥ 2 then "won" else "lost")
    else if strContains pred "2.5 UST" || strContains pred "2.5 ÜST" then
      some (if total_goals ≥ 3 then "won" else "lost")
    else if strContains pred "3.5 UST" || strContains pred "3.5 ÜST" then
      some (if total_goals ≥ 4 then "won" else "lost")
    else if strContains pred "4.5 UST" || strContains pred "4.5 ÜST" then
      some (if total_goals ≥ 5 then "won" else "lost")
    else if strContains pred "5.5 UST" || strContains pred "5.5 ÜST" then
      some (if total_goals ≥ 6 then "won" else "lost")
    else if strContains pred "2.5 ALT" then
      some (if total_goals < 3 then "won" else "lost")
    else if strContains pred "3.5 ALT" then
      some (if total_goals < 4 then "won" else "lost")
    else none
  else none

/-- The both-teams-scored block of the tracker grader (lines 109–114). -/
def tracker_kg_block (pred : String) (ft_home ft_away : Int) :
    Option String :=
  if strContains pred "KG" || strContains pred "KARSILIKLI" then
    let both_scored := decide (ft_home > 0) && decide (ft_away > 0)
    if strContains pred "VAR" then
      some (if both_scored then "won" else "lost")
    else if strContains pred "YOK" then
      some (if !both_scored then "won" else "lost")
    else none
  else none

/-- Embedding of `ResultTracker.check_prediction_result` (track_results.py
lines 37–117).  Note lines 68–69: a missing half-time score is replaced by
0 (`int(ht_home) if ht_home is not None else 0`), and the `int()` coercion
of scores already integral never raises. -/
def tracker_check_prediction_result (prediction : String)
    (match_data : Option TrackerMatchData) : String :=
  match match_data with
  | none => "pending"
  | some md =>
    let pred := pyUpper prediction
    match md.fulltime_home, md.fulltime_away with
    | some ft_home, some ft_away =>
      let ht_home := md.halftime_home.getD 0
      let ht_away := md.halftime_away.getD 0
      let total_goals := ft_home + ft_away
      let ht_total := ht_home + ht_away
      match tracker_iy_block pred ht_home ht_away ht_total with
      | some r => r
      | none =>
        match tracker_ms_block pred total_goals with
        | some r => r
        | none =>
          match tracker_kg_block pred ft_home ft_away with
          | some r => r
          | none => "pending"
    | _, _ => "pending"

/-- C5 as frozen is refuted on the ResultTracker grader: for the half-time
prediction "IY 0.5 UST" with the half-time score unknown, the tracker
substitutes 0 for the missing half-time goals and grades the prediction
`lost` instead of an indeterminate result. -/
theorem c5_tracker_counterexample :
    tracker_check_prediction_result "IY 0.5 UST"
        (some { fulltime_home := some 1, fulltime_away := some 0,
                halftime_home := none, halftime_away := none }) = "lost"
    ∧ "lost" ≠ "pending" := by
  exact ⟨rfl, by decide⟩

/-- C5 amended: the api_football grader is indeterminate for half-time-scope
predictions (containing "İY"/"IY" and no "MS" marker) when either half-time
score is unknown, and indeterminate for texts carrying none of the
recognized markers; the sandbox grader returns "unknown" for its half-time
type and for unrecognized types; the ResultTracker grader however
substitutes 0 for missing half-time scores (so a half-time prediction can
grade won or lost there), while still returning "pending" for marker-free
texts. -/
theorem c5_indeterminate_amended :
    (∀ (pred : String) (h a : Int) (hh ha : Option Int),
      (strContains pred "İY" || strContains pred "IY") = true →
      strContains pred "MS" = false →
      (hh = none ∨ ha = none) →
      check_prediction_result pred h a hh ha = none)
    ∧ (∀ (pred : String) (h a : Int) (hh ha : Option Int),
      strContains pred "MS" = false → strContains pred "İY" = false →
      strContains pred "IY" = false → strContains pred "KG VAR" = false →
      strContains pred "VAR" = false →
      pred ≠ "1" → pred ≠ "X" → pred ≠ "2" →
      check_prediction_result pred h a hh ha = none)
    ∧ (∀ (h a : Int), evaluate_prediction_outcome "İY 0.5 ÜST" h a = "unknown")
    ∧ (∀ (pt : String) (h a : Int),
      pt ≠ "MS 2.5 ÜST" → pt ≠ "MS 2.5 ALT" → pt ≠ "İY 0.5 ÜST" →
      pt ≠ "KG VAR" →
      evaluate_prediction_outcome pt h a = "unknown")
    ∧ (∀ (pred : String) (md : TrackerMatchData),
      strContains (pyUpper pred) "IY" = false →
      strContains (pyUpper pred) "ILKY" = false →
      strContains (pyUpper pred) "MS" = false →
      strContains (pyUpper pred) "MAC" = false →
      strContains (pyUpper pred) "KG" = false →
      strContains (pyUpper pred) "KARSILIKLI" = false →
      tracker_check_prediction_result pred (some md) = "pending")
    ∧ (∀ (pred : String) (fh fa : Int),
      tracker_check_prediction_result pred
          (some { fulltime_home := some fh, fulltime_away := some fa,
                  halftime_home := none, halftime_away := none })
        = tracker_check_prediction_result pred
          (some { fulltime_home := some fh, fulltime_away := some fa,
                  halftime_home := some 0, halftime_away := some 0 })) := by
  refine ⟨?_, ?_, ?_, ?_, ?_, ?_⟩
  · intro pred h a hh ha hiy hms hnone
    rcases hnone with rfl | rfl
    · simp [check_prediction_result, hms, hiy]
    · cases hh <;> simp [check_prediction_result, hms, hiy]
  · intro pred h a hh ha hms hiy1 hiy2 hkgv hvar h1 h2 h3
    have e1 : (pred == "1") = false := by simpa using h1
    have e2 : (pred == "X") = false := by simpa using h2
    have e3 : (pred == "2") = false := by simpa using h3
    simp [check_prediction_result, afterScopedChecks, hms, hiy1, hiy2,
      hkgv, hvar, e1, e2, e3]
  · intro h a
    rfl
  · intro pt h a h1 h2 h3 h4
    have e1 : (pt == "MS 2.5 ÜST") = false := by simpa using h1
    have e2 : (pt == "MS 2.5 ALT") = false := by simpa using h2
    have e3 : (pt == "İY 0.5 ÜST") = false := by simpa using h3
    have e4 : (pt == "KG VAR") = false := by simpa using h4
    simp [evaluate_prediction_outcome, e1, e2, e3, e4]
  · intro pred md hiy hilky hms hmac hkg hkar
    rcases md with ⟨fh, fa, hh, ha⟩
    cases fh <;> cases fa <;>
      simp [tracker_check_prediction_result, tracker_iy_block,
        tracker_ms_block, tracker_kg_block, hiy, hilky, hms, hmac, hkg, hkar]
  · intro pred fh fa
    rfl

/-- Witness for `c5_indeterminate_amended`: the half-time prediction
"İY 0.5 ÜST" with half-time score unknown grades indeterminate in the
api_football grader. -/
theorem c5_indeterminate_amended_witness :
    (strContains "İY 0.5 ÜST" "İY" || strContains "İY 0.5 ÜST" "IY") = true
    ∧ strContains "İY 0.5 ÜST" "MS" = false
    ∧ check_prediction_result "İY 0.5 ÜST" 2 1 none (some 0) = none :=
  ⟨by decide, by decide,
    c5_indeterminate_amended.1 "İY 0.5 ÜST" 2 1 none (some 0)
      (by decide) (by decide) (Or.inl rfl)⟩

/-! ## FixtureMatcher (`api_football.py` lines 73–178) -/

/-- Python `str.strip()` (the names only carry plain spaces at the ends). -/
def pyStrip (s : String) : String :=
  String.mk (((s.data.dropWhile (· == ' ')).reverse.dropWhile
    (· == ' ')).reverse)

/-- Replace every occurrence of a pattern, scanning left to right
(Python `str.replace`).  Fuel-structured so concrete evaluations reduce in
the kernel; `s.length` fuel suffices because every step consumes at least
one character (the sources never replace an empty pattern). -/
def replaceChunkFuel (pat rep : List Char) : ℕ → List Char → List Char
  | 0, s => s
  | _ + 1, [] => []
  | fuel + 1, c :: cs =>
    if chunkLeads pat (c :: cs) && !pat.isEmpty then
      rep ++ replaceChunkFuel pat rep fuel ((c :: cs).drop pat.length)
    else c :: replaceChunkFuel pat rep fuel cs

/-- Python `str.replace` on strings. -/
def strReplace (s pat rep : String) : String :=
  String.mk (replaceChunkFuel pat.data rep.data s.data.length s.data)

/-- The `turkish_chars` substitution table of `match_fixture_by_teams`
(both its `normalize` and `get_key_words` use the same table), applied in
insertion order.  The second entry is the two-codepoint sequence
i + U+0307 produced by Python's `lower()` on `İ`. -/
def turkish_chars : List (String × String) :=
  [("ı", "i"), ("i̇", "i"), ("İ", "i"),
   ("ğ", "g"), ("Ğ", "g"),
   ("ü", "u"), ("Ü", "u"),
   ("ş", "s"), ("Ş", "s"),
   ("ö", "o"), ("Ö", "o"),
   ("ç", "c"), ("Ç", "c")]

/-- Apply every Turkish-character substitution in table order. -/
def applyTurkish (s : String) : String :=
  turkish_chars.foldl (fun acc pr => strReplace acc pr.1 pr.2) s

/-- The corporate/suffix tokens removed by `normalize`. -/
def removal_words : List String :=
  [" fc", " cf", " sc", " ac", " club", " united", " city", " f.", " f "]

/-- Embedding of the inner `normalize` of `match_fixture_by_teams`
(api_football.py lines 85–107): lower-case, strip, Turkish substitutions,
suffix-token removal, then removal of hyphens, dots and spaces. -/
def fm_normalize (name : String) : String :=
  let name := pyStrip (pyLower name)
  let name := applyTurkish name
  let name := removal_words.foldl (fun acc w => strReplace acc w "") name
  let name := strReplace name "-" ""
  let name := strReplace name "." ""
  strReplace name " " ""

/-- The stop-list of `get_key_words`. -/
def keyword_stoplist : List String := ["the", "fc", "cf", "sc", "ac", "f"]

/-- Embedding of the inner `get_key_words` of `match_fixture_by_teams`
(api_football.py lines 109–129): lower-case, strip, Turkish substitutions,
split on spaces/hyphens/dots, keep tokens longer than two characters not in
the stop-list; the Python `set(words)` is modelled as the duplicate-free
list in first-occurrence order. -/
def fm_get_key_words (name : String) : List String :=
  let name := pyStrip (pyLower name)
  let name := applyTurkish name
  let ws := pySplit (strReplace (strReplace name "-" " ") "." " ")
  (ws.filter (fun w =>
    2 < w.length && !(keyword_stoplist.contains w))).eraseDups

/-- Size of the intersection of two word sets (`len(a & b)` on Python
sets, both lists being duplicate-free). -/
def wordOverlap (a b : List String) : ℕ :=
  (a.filter (fun w => b.contains w)).length

/-- An externally reported fixture: the two team names of
`fixture["teams"]`, plus an identifier. -/
structure ApiFixture where
  fixture_id : Int
  home_name : String
  away_name : String
  deriving DecidableEq, Repr

/-- One side's score in `match_fixture_by_teams`: the +2 containment bonus
(substring in either direction, guarded by `len(home_norm) >= 4 and
(len(home_norm) >= 4 or len(api_home_norm) >= 4)` — the source's condition
verbatim, including its redundant disjunct) plus the word overlap. -/
def side_score (int_name api_name : String) : ℕ :=
  let int_norm := fm_normalize int_name
  let api_norm := fm_normalize api_name
  let base : ℕ :=
    if (strContains api_norm int_norm || strContains int_norm api_norm)
        = true
        ∧ 4 ≤ int_norm.length
        ∧ (4 ≤ int_norm.length ∨ 4 ≤ api_norm.length) then 2
    else 0
  base + wordOverlap (fm_get_key_words int_name) (fm_get_key_words api_name)

/-- Exact normalized equality of both sides — the outright accept of
`match_fixture_by_teams`. -/
def isExactPair (home_team away_team : String) (f : ApiFixture) : Bool :=
  fm_normalize home_team == fm_normalize f.home_name
    && fm_normalize away_team == fm_normalize f.away_name

/-- Summed score of a candidate. -/
def totalScore (home_team away_team : String) (f : ApiFixture) : ℕ :=
  side_score home_team f.home_name + side_score away_team f.away_name

/-- The candidate loop of `match_fixture_by_teams` with its
`best_match`/`best_score` state: exact match returns immediately; an
eligible candidate (both sides ≥ 1) replaces the best only when its summed
score is strictly greater. -/
def mfbtGo (home_team away_team : String) :
    List ApiFixture → Option ApiFixture → ℕ → Option ApiFixture
  | [], best, _ => best
  | f :: rest, best, best_score =>
    if isExactPair home_team away_team f then some f
    else
      let hs := side_score home_team f.home_name
      let aws := side_score away_team f.away_name
      if 1 ≤ hs ∧ 1 ≤ aws ∧ best_score < hs + aws then
        mfbtGo home_team away_team rest (some f) (hs + aws)
      else mfbtGo home_team away_team rest best best_score

/-- Embedding of `api_football.match_fixture_by_teams` (lines 73–178). -/
def match_fixture_by_teams (fixtures : List ApiFixture)
    (home_team away_team : String) : Option ApiFixture :=
  mfbtGo home_team away_team fixtures none 0

/-- Eligibility per the claim: both sides individually score at least 1. -/
def eligibleCand (home_team away_team : String) (f : ApiFixture) : Bool :=
  decide (1 ≤ side_score home_team f.home_name)
    && decide (1 ≤ side_score away_team f.away_name)

/-- One step of the first-seen argmax over candidates. -/
def specStep (home_team away_team : String) (acc : Option ApiFixture)
    (f : ApiFixture) : Option ApiFixture :=
  match acc with
  | none => some f
  | some g =>
    if totalScore home_team away_team g < totalScore home_team away_team f
    then some f else acc

/-- First-seen argmax by summed score. -/
def argmaxFirst (home_team away_team : String) (l : List ApiFixture) :
    Option ApiFixture :=
  l.foldl (specStep home_team away_team) none

/-- Declarative resolver of the amended claim C6: the first exact-equality
candidate is accepted outright; otherwise the first-seen highest-scoring
eligible candidate wins, and no eligible candidate means `none`. -/
def resolveSpec (fixtures : List ApiFixture)
    (home_team away_team : String) : Option ApiFixture :=
  match fixtures.find? (isExactPair home_team away_team) with
  | some f => some f
  | none => argmaxFirst home_team away_team
      (fixtures.filter (eligibleCand home_team away_team))

/-- Side score as claim C6 words it before amendment: the containment bonus
requires the SHORTER of the two normalized strings to have length ≥ 4. -/
def side_score_claim (int_name api_name : String) : ℕ :=
  let int_norm := fm_normalize int_name
  let api_norm := fm_normalize api_name
  let base : ℕ :=
    if (strContains api_norm int_norm || strContains int_norm api_norm)
        = true
        ∧ 4 ≤ min int_norm.length api_norm.length then 2
    else 0
  base + wordOverlap (fm_get_key_words int_name) (fm_get_key_words api_name)

/-- Resolver per claim C6 as frozen (using `side_score_claim`). -/
def resolveClaim (fixtures : List ApiFixture)
    (home_team away_team : String) : Option ApiFixture :=
  match fixtures.find? (isExactPair home_team away_team) with
  | some f => some f
  | none =>
    (fixtures.filter (fun f =>
      decide (1 ≤ side_score_claim home_team f.home_name)
        && decide (1 ≤ side_score_claim away_team f.away_name))).foldl
      (fun acc f =>
        match acc with
        | none => some f
        | some g =>
          if side_score_claim home_team g.home_name
                + side_score_claim away_team g.away_name
              < side_score_claim home_team f.home_name
                + side_score_claim away_team f.away_name
          then some f else acc) none

/-- Fixture refuting the shorter-string clause of C6: its normalized home
name "abc" has length 3. -/
def cxFixture : ApiFixture :=
  { fixture_id := 101, home_name := "abc", away_name := "wxyz" }

set_option maxHeartbeats 2000000 in
/-- C6 as frozen is refuted: against internal names "abcd"/"wxyz" the
source awards the +2 containment bonus on the home side although the
shorter normalized string ("abc") has length 3 < 4 — only the internal
side's length is tested — so the candidate is returned, while the claim's
scoring leaves the home side at 0, making the candidate ineligible and the
result `none`. -/
theorem c6_shorter_length_counterexample :
    match_fixture_by_teams [cxFixture] "abcd" "wxyz" = some cxFixture
    ∧ resolveClaim [cxFixture] "abcd" "wxyz" = none
    ∧ side_score "abcd" "abc" = 2
    ∧ side_score_claim "abcd" "abc" = 0 := by
  refine ⟨by decide, by decide, by decide, by decide⟩

theorem foldl_specStep_some (home_team away_team : String) :
    ∀ (l : List ApiFixture) (g0 : ApiFixture),
    ∃ g, l.foldl (specStep home_team away_team) (some g0) = some g := by
  intro l
  induction l with
  | nil => exact fun g0 => ⟨g0, rfl⟩
  | cons f rest ih =>
    intro g0
    simp only [List.foldl_cons, specStep]
    split
    · exact ih f
    · exact ih g0

theorem specStep_fold_char (home_team away_team : String) :
    ∀ (l : List ApiFixture) (g0 g : ApiFixture),
    l.foldl (specStep home_team away_team) (some g0) = some g →
    (g = g0 ∧ ∀ f ∈ l,
        totalScore home_team away_team f ≤ totalScore home_team away_team g0)
    ∨ (∃ l1 l2, l = l1 ++ g :: l2
        ∧ totalScore home_team away_team g0 < totalScore home_team away_team g
        ∧ (∀ f ∈ l1,
            totalScore home_team away_team f < totalScore home_team away_team g)
        ∧ (∀ f ∈ l2,
            totalScore home_team away_team f
              ≤ totalScore home_team away_team g)) := by
  intro l
  induction l with
  | nil =>
    intro g0 g hg
    simp only [List.foldl_nil, Option.some.injEq] at hg
    exact Or.inl ⟨hg.symm, by simp⟩
  | cons f rest ih =>
    intro g0 g hg
    simp only [List.foldl_cons, specStep] at hg
    by_cases hlt : totalScore home_team away_team g0
        < totalScore home_team away_team f
    · rw [if_pos hlt] at hg
      rcases ih f g hg with ⟨rfl, hall⟩ | ⟨l1, l2, heq, hlt2, h1, h2⟩
      · refine Or.inr ⟨[], rest, by simp, hlt, by simp, hall⟩
      · refine Or.inr ⟨f :: l1, l2, by simp [heq], lt_trans hlt hlt2, ?_, h2⟩
        intro x hx
        rcases List.mem_cons.mp hx with rfl | hx
        · exact hlt2
        · exact h1 x hx
    · rw [if_neg hlt] at hg
      push_neg at hlt
      rcases ih g0 g hg with ⟨rfl, hall⟩ | ⟨l1, l2, heq, hlt2, h1, h2⟩
      · refine Or.inl ⟨rfl, ?_⟩
        intro x hx
        rcases List.mem_cons.mp hx with rfl | hx
        · exact hlt
        · exact hall x hx
      · refine Or.inr ⟨f :: l1, l2, by simp [heq], hlt2, ?_, h2⟩
        intro x hx
        rcases List.mem_cons.mp hx with rfl | hx
        · exact lt_of_le_of_lt hlt hlt2
        · exact h1 x hx

theorem argmaxFirst_eq_none (home_team away_team : String)
    (l : List ApiFixture) (h : argmaxFirst home_team away_team l = none) :
    l = [] := by
  cases l with
  | nil => rfl
  | cons f rest =>
    exfalso
    obtain ⟨g, hg⟩ := foldl_specStep_some home_team away_team rest f
    rw [argmaxFirst, List.foldl_cons] at h
    have : specStep home_team away_team none f = some f := rfl
    rw [this, hg] at h
    exact Option.noConfusion h

theorem argmaxFirst_first_max (home_team away_team : String)
    (l : List ApiFixture) (g : ApiFixture)
    (hg : argmaxFirst home_team away_team l = some g) :
    ∃ l1 l2, l = l1 ++ g :: l2
      ∧ (∀ f ∈ l1,
          totalScore home_team away_team f < totalScore home_team away_team g)
      ∧ (∀ f ∈ l2,
          totalScore home_team away_team f
            ≤ totalScore home_team away_team g) := by
  cases l with
  | nil => exact absurd hg (by simp [argmaxFirst])
  | cons f rest =>
    rw [argmaxFirst, List.foldl_cons] at hg
    have hstep : specStep home_team away_team none f = some f := rfl
    rw [hstep] at hg
    rcases specStep_fold_char home_team away_team rest f g hg with
      ⟨rfl, hall⟩ | ⟨l1, l2, heq, hlt2, h1, h2⟩
    · exact ⟨[], rest, rfl, by simp, hall⟩
    · refine ⟨f :: l1, l2, by simp [heq], ?_, h2⟩
      intro x hx
      rcases List.mem_cons.mp hx with rfl | hx
      · exact hlt2
      · exact h1 x hx

theorem mfbtGo_spec (home_team away_team : String) :
    ∀ (fs : List ApiFixture) (best : Option ApiFixture) (bscore : ℕ),
    bscore = (match best with
      | none => 0
      | some g => totalScore home_team away_team g) →
    mfbtGo home_team away_team fs best bscore
      = (match fs.find? (isExactPair home_team away_team) with
         | some f => some f
         | none => (fs.filter (eligibleCand home_team away_team)).foldl
             (specStep home_team away_team) best) := by
  intro fs
  induction fs with
  | nil => intro best bscore hinv; simp [mfbtGo]
  | cons f rest ih =>
    intro best bscore hinv
    rw [mfbtGo]
    by_cases hex : isExactPair home_team away_team f = true
    · rw [if_pos hex, List.find?_cons_of_pos _ hex]
    · rw [if_neg hex, List.find?_cons_of_neg _ (by simp [hex])]
      dsimp only
      by_cases hel : eligibleCand home_team away_team f = true
      · have hel2 : 1 ≤ side_score home_team f.home_name
            ∧ 1 ≤ side_score away_team f.away_name := by
          constructor <;> [exact of_decide_eq_true (Bool.and_elim_left hel);
            exact of_decide_eq_true (Bool.and_elim_right hel)]
        rw [List.filter_cons_of_pos hel, List.foldl_cons]
        cases best with
        | none =>
          have hb0 : bscore = 0 := hinv
          have hcond : 1 ≤ side_score home_team f.home_name
              ∧ 1 ≤ side_score away_team f.away_name
              ∧ bscore < side_score home_team f.home_name
                  + side_score away_team f.away_name := by
            refine ⟨hel2.1, hel2.2, ?_⟩
            rw [hb0]
            omega
          rw [if_pos hcond]
          have hstep : specStep home_team away_team none f = some f := rfl
          rw [hstep]
          exact ih (some f) _ rfl
        | some g =>
          have hbg : bscore = totalScore home_team away_team g := hinv
          by_cases hlt : totalScore home_team away_team g
              < totalScore home_team away_team f
          · have hcond : 1 ≤ side_score home_team f.home_name
                ∧ 1 ≤ side_score away_team f.away_name
                ∧ bscore < side_score home_team f.home_name
                    + side_score away_team f.away_name := by
              refine ⟨hel2.1, hel2.2, ?_⟩
              rw [hbg]
              exact hlt
            rw [if_pos hcond]
            have hstep : specStep home_team away_team (some g) f = some f := by
              simp [specStep, hlt]
            rw [hstep]
            exact ih (some f) _ rfl
          · have hcond : ¬(1 ≤ side_score home_team f.home_name
                ∧ 1 ≤ side_score away_team f.away_name
                ∧ bscore < side_score home_team f.home_name
                    + side_score away_team f.away_name) := by
              rintro ⟨-, -, hc⟩
              rw [hbg] at hc
              exact hlt hc
            rw [if_neg hcond]
            have hstep : specStep home_team away_team (some g) f = some g := by
              simp [specStep, hlt]
            rw [hstep]
            exact ih (some g) bscore hinv
      · have hcond : ¬(1 ≤ side_score home_team f.home_name
            ∧ 1 ≤ side_score away_team f.away_name
            ∧ bscore < side_score home_team f.home_name
                + side_score away_team f.away_name) := by
          rintro ⟨hc1, hc2, -⟩
          exact hel (by
            unfold eligibleCand
            rw [decide_eq_true hc1, decide_eq_true hc2]
            rfl)
        rw [if_neg hcond, List.filter_cons_of_neg (by simp [hel])]
        exact ih best bscore hinv

/-- C6 amended: the matcher equals the declarative resolver — a candidate is
accepted outright on exact normalized equality of both sides (first such
candidate); otherwise only candidates with both side scores ≥ 1 are
eligible, where the +2 containment bonus requires the INTERNAL name's
normalized string (not the shorter of the two) to have length ≥ 4; among
eligible candidates the highest summed score wins with ties keeping the
first-seen candidate (every earlier eligible candidate scores strictly
less, every later one at most as much); and with no exact and no eligible
candidate the result is `none`, not an error. -/
theorem c6_fixture_matcher_amended (fixtures : List ApiFixture)
    (home_team away_team : String) :
    match_fixture_by_teams fixtures home_team away_team
        = resolveSpec fixtures home_team away_team
    ∧ (fixtures.find? (isExactPair home_team away_team) = none →
        fixtures.filter (eligibleCand home_team away_team) = [] →
        match_fixture_by_teams fixtures home_team away_team = none)
    ∧ (∀ g : ApiFixture,
        fixtures.find? (isExactPair home_team away_team) = none →
        match_fixture_by_teams fixtures home_team away_team = some g →
        ∃ l1 l2,
          fixtures.filter (eligibleCand home_team away_team) = l1 ++ g :: l2
          ∧ (∀ f ∈ l1, totalScore home_team away_team f
              < totalScore home_team away_team g)
          ∧ (∀ f ∈ l2, totalScore home_team away_team f
              ≤ totalScore home_team away_team g)) := by
  have heq : match_fixture_by_teams fixtures home_team away_team
      = resolveSpec fixtures home_team away_team := by
    unfold match_fixture_by_teams resolveSpec argmaxFirst
    exact mfbtGo_spec home_team away_team fixtures none 0 rfl
  refine ⟨heq, ?_, ?_⟩
  · intro hfind hfilter
    rw [heq]
    unfold resolveSpec
    rw [hfind, hfilter]
    rfl
  · intro g hfind hsome
    rw [heq] at hsome
    unfold resolveSpec at hsome
    rw [hfind] at hsome
    exact argmaxFirst_first_max home_team away_team _ g hsome

set_option maxHeartbeats 2000000 in
/-- Witness for `c6_fixture_matcher_amended` on a one-candidate list with
no exact match, instantiating the first-seen-maximum decomposition. -/
theorem c6_fixture_matcher_amended_witness :
    [cxFixture].find? (isExactPair "abcd" "wxyz") = none
    ∧ match_fixture_by_teams [cxFixture] "abcd" "wxyz" = some cxFixture
    ∧ ∃ l1 l2,
        [cxFixture].filter (eligibleCand "abcd" "wxyz") = l1 ++ cxFixture :: l2
        ∧ (∀ f ∈ l1, totalScore "abcd" "wxyz" f
            < totalScore "abcd" "wxyz" cxFixture)
        ∧ (∀ f ∈ l2, totalScore "abcd" "wxyz" f
            ≤ totalScore "abcd" "wxyz" cxFixture) :=
  ⟨by decide, by decide,
    (c6_fixture_matcher_amended [cxFixture] "abcd" "wxyz").2.2 cxFixture
      (by decide) (by decide)⟩
